import Mathlib

/-!
# HostFlow STR engine — formal model

Shallow embedding of the analytics / reconciliation engine of
`src/str_logic.py` (the pure computation layer of the HostFlow
short-term-rental app), together with proofs settling the frozen claims
about it.

Modelling conventions, used consistently below:

* Python `float` money amounts are modelled as exact rationals `ℚ`.
  Python's `round(x, n)` (round-half-to-even, "banker's rounding") is
  modelled exactly by `rhe` / `round2` / `round1` below.
* Python `datetime.date` values are modelled by their proleptic-Gregorian
  ordinal (`date.toordinal()`), an integer; `date(y, m, d)` is `mkDate y m d`,
  `d2 - d1` in days is integer subtraction, `d + timedelta(days = k)` is
  `d + k`, and `d.year` / `d.month` are `yearOf` / `monthOf`.  This mapping
  is a bijection between valid dates and ordinals, and it maps Python's
  date ordering to the integer ordering.
* Date-valued strings stored on records (`check_in`, `check_out`,
  `created_date`, expense `date`) are modelled by their parse result
  `Option ℤ` (`none` = a string `_parse_date` rejects).  `d.isoformat()`
  round-trips through `_parse_date`, and is injective, so storing the
  ordinal itself is faithful wherever the engine compares or re-parses
  those strings.
* `date.today()` and `generate_id()` (wall clock effects) are passed in as
  explicit parameters (`today : ℤ`, an id supply `gen : ℕ → String`).
* String manipulation is implemented structurally over `List Char`
  (`ch*` helpers below) so that every definition evaluates inside the
  kernel; semantics follow CPython on the ASCII inputs the feed format
  uses (`str.lower`, `str.strip`, `str.replace`, `str.split`,
  `str.partition`, substring `in`).
-/

/-- Python `round` to an integer: round half to even ("banker's rounding").
`round(q)` for a real (here rational) argument. -/
def rhe (q : ℚ) : ℤ :=
  if Int.fract q < 1/2 then ⌊q⌋
  else if 1/2 < Int.fract q then ⌊q⌋ + 1
  else if 2 ∣ ⌊q⌋ then ⌊q⌋ else ⌊q⌋ + 1

/-- Python `round(q, 2)` (round to cents, half to even). -/
def round2 (q : ℚ) : ℚ := ((rhe (q * 100) : ℤ) : ℚ) / 100

/-- Python `round(q, 1)` (round to one decimal, half to even). -/
def round1 (q : ℚ) : ℚ := ((rhe (q * 10) : ℤ) : ℚ) / 10

/-! ## Character-list string helpers (CPython string operations) -/

/-- `needle` is a prefix of `hay` (char lists). -/
def chStartsWith : List Char → List Char → Bool
  | [], _ => true
  | _ :: _, [] => false
  | a :: as, b :: bs => a == b && chStartsWith as bs

/-- Python `needle in hay` (substring containment). -/
def chContains : List Char → List Char → Bool
  | [], needle => chStartsWith needle []
  | c :: rest, needle => chStartsWith needle (c :: rest) || chContains rest needle

/-- Python whitespace stripped by `str.strip` (ASCII part). -/
def isPySpace (c : Char) : Bool :=
  c == ' ' || c == '\t' || c == '\n' || c == '\r' || c == '\x0b' || c == '\x0c'

/-- Python `str.strip()`. -/
def chTrim (l : List Char) : List Char :=
  ((l.dropWhile isPySpace).reverse.dropWhile isPySpace).reverse

/-- ASCII `str.lower()` (the feed keywords and markers are ASCII). -/
def chLowerChar (c : Char) : Char :=
  if 'A' ≤ c ∧ c ≤ 'Z' then Char.ofNat (c.toNat + 32) else c

def chLower (l : List Char) : List Char := l.map chLowerChar

/-- `s.replace("\r\n ", "")`: leftmost scan removing each occurrence,
continuing after it, exactly as CPython `str.replace`. -/
def stripFoldSpace : List Char → List Char
  | '\r' :: '\n' :: ' ' :: rest => stripFoldSpace rest
  | c :: rest => c :: stripFoldSpace rest
  | [] => []

/-- `s.replace("\r\n\t", "")` (second pass of the iCal line unfolding). -/
def stripFoldTab : List Char → List Char
  | '\r' :: '\n' :: '\t' :: rest => stripFoldTab rest
  | c :: rest => c :: stripFoldTab rest
  | [] => []

/-- Split on every character satisfying `p` (like `String.split`; Python
`str.splitlines` for `p = newline-ish` up to harmless empty pieces). -/
def chSplitBy (p : Char → Bool) : List Char → List (List Char)
  | [] => [[]]
  | c :: rest =>
    if p c then [] :: chSplitBy p rest
    else
      match chSplitBy p rest with
      | l :: ls => (c :: l) :: ls
      | [] => [[c]]

/-- Python `s.split(sep, 1)` / `s.partition(sep)`: split at the first
occurrence of `sep`, `none` when `sep` does not occur. -/
def chSplitOnce (sep : List Char) : List Char → Option (List Char × List Char)
  | [] => none
  | c :: rest =>
    if chStartsWith sep (c :: rest) then some ([], (c :: rest).drop sep.length)
    else
      match chSplitOnce sep rest with
      | some (a, b) => some (c :: a, b)
      | none => none

/-- First maximal run of decimal digits, as a number: `re.findall(r"\d+", s)[0]`
when it exists (`int` of it). -/
def firstDigitRun : List Char → Option ℕ
  | [] => none
  | c :: rest =>
    if c.isDigit then
      some (((c :: rest).takeWhile Char.isDigit).foldl (fun a d => a * 10 + (d.toNat - '0'.toNat)) 0)
    else firstDigitRun rest

/-! ## Dates: proleptic-Gregorian ordinals (Python `date.toordinal()`) -/

/-- Gregorian leap year. -/
def isLeap (y : ℤ) : Prop := y % 4 = 0 ∧ (y % 100 ≠ 0 ∨ y % 400 = 0)

instance (y : ℤ) : Decidable (isLeap y) := by unfold isLeap; infer_instance

/-- Days in month `m` of year `y`. -/
def daysInMonth (y m : ℤ) : ℤ :=
  if m = 2 then (if isLeap y then 29 else 28)
  else if m = 4 ∨ m = 6 ∨ m = 9 ∨ m = 11 then 30
  else 31

/-- Days in year `y` strictly before month `m`. -/
def daysBeforeMonth (y m : ℤ) : ℤ :=
  (if m = 1 then 0 else if m = 2 then 31 else if m = 3 then 59
   else if m = 4 then 90 else if m = 5 then 120 else if m = 6 then 151
   else if m = 7 then 181 else if m = 8 then 212 else if m = 9 then 243
   else if m = 10 then 273 else if m = 11 then 304 else 334)
  + (if 2 < m ∧ isLeap y then 1 else 0)

/-- `date(y, m, d).toordinal()`: ordinal 1 is 0001-01-01. -/
def mkDate (y m d : ℤ) : ℤ :=
  365 * (y - 1) + Int.fdiv (y - 1) 4 - Int.fdiv (y - 1) 100 + Int.fdiv (y - 1) 400
    + daysBeforeMonth y m + d

/-- Inverse of `mkDate` on valid dates (closed-form civil-from-days),
returning `(year, month, day)`. -/
def civilOf (o : ℤ) : ℤ × ℤ × ℤ :=
  let z := o + 305
  let era := Int.fdiv z 146097
  let doe := z - era * 146097
  let yoe := Int.fdiv (doe - Int.fdiv doe 1460 + Int.fdiv doe 36524 - Int.fdiv doe 146096) 365
  let y := yoe + era * 400
  let doy := doe - (365 * yoe + Int.fdiv yoe 4 - Int.fdiv yoe 100)
  let mp := Int.fdiv (5 * doy + 2) 153
  let d := doy - Int.fdiv (153 * mp + 2) 5 + 1
  let m := mp + (if mp < 10 then 3 else -9)
  (if m ≤ 2 then y + 1 else y, m, d)

/-- `d.year` of an ordinal. -/
def yearOf (o : ℤ) : ℤ := (civilOf o).1

/-- `d.month` of an ordinal. -/
def monthOf (o : ℤ) : ℤ := (civilOf o).2.1

/-! ## Data model (`@dataclass` records of `str_logic.py`)

Only the attributes the engine functions under verification read are
carried; all are plain data, defaults mirror the dataclass / import-dict
defaults.  `ical_uid` is the extra key the iCal importer adds to booking
dicts. -/

structure Property where
  property_id : String
  name : String := ""
  nickname : String := ""
  address : String := ""
  status : String := "active"
  check_in_time : String := "3:00 PM"
  check_out_time : String := "11:00 AM"
  insurance_annual : ℚ := 0
  property_tax_annual : ℚ := 0
  deriving DecidableEq

structure Booking where
  booking_id : String := ""
  property_id : String := ""
  guest_name : String := "Guest"
  guest_phone : String := ""
  guest_email : String := ""
  num_guests : ℕ := 2
  check_in : Option ℤ := none
  check_out : Option ℤ := none
  num_nights : ℤ := 0
  nightly_rate : ℚ := 0
  cleaning_fee : ℚ := 0
  total_payout : ℚ := 0
  platform : String := "Airbnb"
  platform_fee : ℚ := 0
  status : String := "confirmed"
  special_requests : String := ""
  guest_notes : String := ""
  turnover_status : String := "pending"
  cleaner_confirmed : Bool := false
  rating_given : ℚ := 0
  created_date : Option ℤ := none
  ical_uid : String := ""
  deriving DecidableEq

structure Expense where
  property_id : String := ""
  category : String := ""
  amount : ℚ := 0
  date : Option ℤ := none
  deriving DecidableEq

structure MaintenanceItem where
  property_id : String := ""
  title : String := ""
  priority : String := "medium"
  status : String := "open"
  deriving DecidableEq

/-- A blocked (owner/platform unavailability) interval parsed from a feed
(the `_blocked` dicts of `_process_ical_event`). -/
structure BlockedInterval where
  start : ℤ
  end_ : ℤ
  reason : String
  property_id : String
  deriving DecidableEq

/-- A vacancy gap emitted by `get_gap_nights`. -/
structure Gap where
  start : ℤ
  end_ : ℤ
  nights : ℤ
  deriving DecidableEq

/-! ## Payout rule (`calculate_payout`, `str_logic.py:1538`) -/

/-- `calculate_payout(rate, nights, clean, pct=0.03)`:
`g = rate*nights + clean; f = g*pct; return round(g-f, 2), round(f, 2)`. -/
def calculate_payout (rate nights clean : ℚ) (pct : ℚ := 3/100) : ℚ × ℚ :=
  (round2 ((rate * nights + clean) - (rate * nights + clean) * pct),
   round2 ((rate * nights + clean) * pct))

/-! ## Daily briefing generator (`generate_daily_briefing`, `str_logic.py:373`) -/

/-- `property_map = {p.get("property_id",""): p for p in properties}` followed
by `.get(pid)`: on duplicate ids the last property wins. -/
def propLookup (properties : List Property) (pid : String) : Option Property :=
  properties.reverse.find? (fun p => p.property_id == pid)

/-- `prop.get("nickname") or prop.get("name", "Unknown")` on the looked-up
property dict (`{}` when the id is unknown). -/
def propDisplayName (prop? : Option Property) : String :=
  match prop? with
  | some p => if p.nickname ≠ "" then p.nickname else p.name
  | none => "Unknown"

/-- One entry of `briefing["actions"]`; `template := none` models a dict
without the `"template"` key. -/
structure ActionItem where
  priority : String
  type : String
  text : String
  property_id : String
  template : Option String := none
  deriving DecidableEq

/-- A `{"booking": ..., "property": pname}` entry. -/
structure BookingRef where
  booking : Booking
  property : String
  deriving DecidableEq

/-- A `{"booking": ..., "property": ..., "nights_remaining": ...}` entry. -/
structure ActiveStay where
  booking : Booking
  property : String
  nights_remaining : ℤ
  deriving DecidableEq

structure DailyBriefing where
  date : ℤ
  actions : List ActionItem
  check_ins_today : List BookingRef
  check_outs_today : List BookingRef
  check_ins_tomorrow : List BookingRef
  active_stays : List ActiveStay
  turnovers_needed : List BookingRef
  maintenance_urgent : List MaintenanceItem
  vacant_tonight : List Property
  occupancy_rate : ℚ
  revenue_this_month : ℚ
  summary : String
  deriving DecidableEq

/-- `{"high": 0, "medium": 1, "low": 2}.get(a.get("priority", "low"), 3)`. -/
def prioVal (a : ActionItem) : ℕ :=
  if a.priority = "high" then 0 else if a.priority = "medium" then 1
  else if a.priority = "low" then 2 else 3

def actionLe (a b : ActionItem) : Bool := decide (prioVal a ≤ prioVal b)

/-- Stable insertion (used to model Python's stable `list.sort` /
`sorted`: an element is placed before the first strictly-later element it
compares `le` to, keeping the original relative order of ties). -/
def insertSorted (le : α → α → Bool) (a : α) : List α → List α
  | [] => [a]
  | b :: bs => if le a b then a :: b :: bs else b :: insertSorted le a bs

def sortStable (le : α → α → Bool) : List α → List α
  | [] => []
  | x :: xs => insertSorted le x (sortStable le xs)

/-- The body of the `for booking in bookings:` loop of
`generate_daily_briefing`.  State: the briefing being built plus the
`occupied_tonight` set (a list with insert-if-absent, used only for
membership and size). -/
def briefingStep (properties : List Property) (today : ℤ)
    (st : DailyBriefing × List String) (booking : Booking) :
    DailyBriefing × List String :=
  if booking.status = "cancelled" then st
  else
    let tomorrow := today + 1
    let yesterday := today - 1
    let b_in := booking.check_in
    let b_out := booking.check_out
    let pid := booking.property_id
    let prop? := propLookup properties pid
    let pname := propDisplayName prop?
    let guest := booking.guest_name
    let br0 := st.1
    let br1 :=
      if b_in = some today then
        { br0 with
          check_ins_today := br0.check_ins_today ++ [⟨booking, pname⟩],
          actions := br0.actions ++
            [⟨"high", "check_in",
              "🔑 " ++ guest ++ " checks into " ++ pname ++ " at "
                ++ (match prop? with | some p => p.check_in_time | none => "3 PM"),
              pid, none⟩,
             ⟨"medium", "message",
              "📱 Send check-in instructions to " ++ guest ++ " (" ++ pname ++ ")",
              pid, some "check_in_day"⟩] }
      else br0
    let br2 :=
      if b_in = some tomorrow then
        { br1 with
          check_ins_tomorrow := br1.check_ins_tomorrow ++ [⟨booking, pname⟩],
          actions := br1.actions ++
            [⟨"medium", "message",
              "📱 Send day-before instructions to " ++ guest ++ " (" ++ pname ++ ")",
              pid, some "check_in_instructions"⟩] }
      else br1
    let br3 :=
      if b_out = some today then
        let brA :=
          { br2 with
            check_outs_today := br2.check_outs_today ++ [⟨booking, pname⟩],
            actions := br2.actions ++
              [⟨"high", "checkout",
                "👋 " ++ guest ++ " checks out of " ++ pname ++ " at "
                  ++ (match prop? with | some p => p.check_out_time | none => "11 AM"),
                pid, none⟩] }
        if booking.cleaner_confirmed then brA
        else
          { brA with
            turnovers_needed := brA.turnovers_needed ++ [⟨booking, pname⟩],
            actions := brA.actions ++
              [⟨"high", "turnover", "🧹 Confirm turnover for " ++ pname, pid, none⟩] }
      else br2
    let br4 :=
      if b_out = some yesterday then
        { br3 with
          actions := br3.actions ++
            [⟨"low", "message",
              "⭐ Review request to " ++ guest ++ " (" ++ pname ++ ")",
              pid, some "review_request"⟩] }
      else br3
    let next : DailyBriefing × List String :=
      match b_in, b_out with
      | some i, some o =>
        if i ≤ today ∧ today < o then
          let brB := { br4 with active_stays := br4.active_stays ++ [⟨booking, pname, o - today⟩] }
          let occ' := if pid ∈ st.2 then st.2 else st.2 ++ [pid]
          let brC :=
            if booking.num_nights ≥ 4 ∧ i + Int.fdiv booking.num_nights 2 = today then
              { brB with
                actions := brB.actions ++
                  [⟨"low", "message",
                    "💬 Mid-stay check with " ++ guest ++ " (" ++ pname ++ ")",
                    pid, some "mid_stay_check"⟩] }
            else brB
          (brC, occ')
        else (br4, st.2)
      | _, _ => (br4, st.2)
    let br6 :=
      match b_in with
      | some i =>
        if monthOf i = monthOf today ∧ yearOf i = yearOf today then
          { next.1 with revenue_this_month := next.1.revenue_this_month + booking.total_payout }
        else next.1
      | none => next.1
    (br6, next.2)

/-- The body of the `for item in maintenance_items:` loop. -/
def maintStep (properties : List Property) (br : DailyBriefing)
    (item : MaintenanceItem) : DailyBriefing :=
  if (item.status = "open" ∨ item.status = "in_progress")
      ∧ (item.priority = "high" ∨ item.priority = "urgent") then
    { br with
      maintenance_urgent := br.maintenance_urgent ++ [item],
      actions := br.actions ++
        [⟨if item.priority = "urgent" then "high" else "medium", "maintenance",
          "🔧 " ++ item.title ++ " at "
            ++ (match propLookup properties item.property_id with
                | some p => p.nickname | none => ""),
          item.property_id, none⟩] }
  else br

/-- `'s' if n > 1 else ''`. -/
def pluralS (n : ℕ) : String := if n > 1 then "s" else ""

def generate_daily_briefing (properties : List Property) (bookings : List Booking)
    (maintenance_items : List MaintenanceItem) (today : ℤ) : DailyBriefing :=
  let init : DailyBriefing :=
    { date := today, actions := [], check_ins_today := [], check_outs_today := [],
      check_ins_tomorrow := [], active_stays := [], turnovers_needed := [],
      maintenance_urgent := [], vacant_tonight := [], occupancy_rate := 0,
      revenue_this_month := 0, summary := "" }
  let active_properties := properties.filter (fun p => p.status == "active")
  let st := bookings.foldl (briefingStep properties today) (init, [])
  let occupied := st.2
  let br := st.1
  let br : DailyBriefing := { br with
    vacant_tonight := active_properties.filter (fun p => decide (p.property_id ∉ occupied)) }
  let br : DailyBriefing :=
    if active_properties ≠ [] then
      { br with occupancy_rate := (occupied.length : ℚ) / (active_properties.length : ℚ) * 100 }
    else br
  let br : DailyBriefing := maintenance_items.foldl (maintStep properties) br
  let br : DailyBriefing := { br with actions := sortStable actionLe br.actions }
  let p1 : List String :=
    if br.check_ins_today ≠ [] then
      [toString br.check_ins_today.length ++ " check-in" ++ pluralS br.check_ins_today.length]
    else []
  let p2 : List String :=
    if br.check_outs_today ≠ [] then
      [toString br.check_outs_today.length ++ " checkout" ++ pluralS br.check_outs_today.length]
    else []
  let p3 : List String :=
    if br.turnovers_needed ≠ [] then
      [toString br.turnovers_needed.length ++ " turnover" ++ pluralS br.turnovers_needed.length]
    else []
  let parts : List String := p1 ++ p2 ++ p3
  { br with summary :=
      if parts ≠ [] then
        "Today: " ++ String.intercalate ", " parts ++ ". "
          ++ toString br.actions.length ++ " action items."
      else if br.active_stays ≠ [] then
        "Quiet day. " ++ toString br.active_stays.length ++ " active stays."
      else "All clear today." }

/-! ## Revenue & occupancy analytics (`calculate_property_metrics`, `str_logic.py:447`) -/

structure PropertyMetrics where
  total_revenue : ℚ
  total_nights_booked : ℤ
  total_days : ℤ
  occupancy_rate : ℚ
  avg_nightly_rate : ℚ
  total_bookings : ℕ
  avg_rating : ℚ
  deriving DecidableEq

/-- Loop body of `calculate_property_metrics`: state is
`(total_revenue, total_nights, ratings)`. -/
def metricsStep (start_date end_date : ℤ) (st : ℚ × ℤ × List ℚ) (b : Booking) :
    ℚ × ℤ × List ℚ :=
  match b.check_in, b.check_out with
  | some b_in, some b_out =>
    let nights := max (min b_out end_date - max b_in start_date) 0
    let st1 :=
      if nights > 0 then
        (st.1 + b.total_payout * ((nights : ℚ) / ((max (b_out - b_in) 1 : ℤ) : ℚ)),
         st.2.1 + nights, st.2.2)
      else st
    if b.rating_given > 0 then (st1.1, st1.2.1, st1.2.2 ++ [b.rating_given]) else st1
  | _, _ => st

/-- `prop_bookings = [b for b in bookings if b.get("property_id") == property_id
and b.get("status") != "cancelled"]`. -/
def prop_bookings_for (bookings : List Booking) (property_id : String) : List Booking :=
  bookings.filter (fun b => b.property_id == property_id && b.status != "cancelled")

def calculate_property_metrics (bookings : List Booking) (property_id : String)
    (start_date end_date : ℤ) : PropertyMetrics :=
  let total_days := max (end_date - start_date) 1
  let prop_bookings := prop_bookings_for bookings property_id
  let acc := prop_bookings.foldl (metricsStep start_date end_date) (0, 0, [])
  let total_revenue := acc.1
  let total_nights := acc.2.1
  let ratings := acc.2.2
  { total_revenue := round2 total_revenue
    total_nights_booked := total_nights
    total_days := total_days
    occupancy_rate :=
      round1 (if total_days ≠ 0 then (total_nights : ℚ) / (total_days : ℚ) * 100 else 0)
    avg_nightly_rate :=
      round2 (if total_nights ≠ 0 then total_revenue / (total_nights : ℚ) else 0)
    total_bookings := prop_bookings.length
    avg_rating :=
      if ratings ≠ [] then round1 ((ratings.foldl (· + ·) 0) / (ratings.length : ℚ)) else 0 }

/-! ## Gap analysis (`get_gap_nights`, `str_logic.py:491`) -/

/-- `sorted(..., key=lambda b: b.get("check_in", ""))`: the stored strings
sort like their parse results, with unparseable/missing (`none`) first. -/
def ciLe (a b : Booking) : Bool :=
  match a.check_in, b.check_in with
  | none, _ => true
  | some _, none => false
  | some x, some y => decide (x ≤ y)

/-- The non-cancelled future-relevant bookings of the property: `check_out`
parses and lies strictly after today. -/
def gapCandidates (today : ℤ) (bookings : List Booking) (property_id : String) : List Booking :=
  bookings.filter
    (fun b => b.property_id == property_id && b.status != "cancelled"
      && (match b.check_out with | some co => decide (co > today) | none => false))

/-- Loop body of `get_gap_nights`: state is `(gaps, current)`; a booking
with unparseable dates is passed over (`continue`). -/
def gapStep (st : List Gap × ℤ) (b : Booking) : List Gap × ℤ :=
  match b.check_in, b.check_out with
  | some b_in, some b_out =>
    let st1 := if b_in > st.2 then (st.1 ++ [⟨st.2, b_in, b_in - st.2⟩], st.2) else st
    (st1.1, max st1.2 b_out)
  | _, _ => st

def get_gap_nights (today : ℤ) (bookings : List Booking) (property_id : String)
    (lookahead_days : ℤ := 30) : List Gap :=
  let end_date := today + lookahead_days
  let prop_bookings := sortStable ciLe (gapCandidates today bookings property_id)
  let st := prop_bookings.foldl gapStep ([], today)
  if st.2 < end_date then st.1 ++ [⟨st.2, end_date, end_date - st.2⟩] else st.1

/-- The gap walk exactly as the specification words it: cursor starts at
today; a booking whose check-in exceeds the cursor yields a gap; the cursor
advances to the later of itself and the booking's check-out; a positive
trailing gap to the window end is emitted last.  (Bookings whose stored
dates do not parse are passed over, as in the code.) -/
def gapWalkSpec (end_date : ℤ) (cursor : ℤ) : List Booking → List Gap
  | [] => if cursor < end_date then [⟨cursor, end_date, end_date - cursor⟩] else []
  | b :: bs =>
    match b.check_in, b.check_out with
    | some b_in, some b_out =>
      if b_in > cursor then
        ⟨cursor, b_in, b_in - cursor⟩ :: gapWalkSpec end_date (max cursor b_out) bs
      else gapWalkSpec end_date (max cursor b_out) bs
    | _, _ => gapWalkSpec end_date cursor bs

/-! ## Schedule E (`generate_schedule_e_summary`, `str_logic.py:596`) -/

structure ScheduleE where
  property_address : String
  fair_rental_days : ℤ
  line_3_rents : ℚ
  line_5_advertising : ℚ
  line_6_auto : ℚ
  line_7_cleaning : ℚ
  line_8_commissions : ℚ
  line_9_insurance : ℚ
  line_10_legal : ℚ
  line_12_mortgage_int : ℚ
  line_14_repairs : ℚ
  line_15_supplies : ℚ
  line_16_taxes : ℚ
  line_17_utilities : ℚ
  line_18_depreciation : ℚ
  line_19_other : ℚ
  total_expenses : ℚ
  net_income : ℚ
  deriving DecidableEq

/-- The fixed `cat_map` lookup with default `"line_19_other"`. -/
def catLine (category : String) : String :=
  if category = "Advertising/Marketing" then "line_5_advertising"
  else if category = "Travel (Property Visits)" ∨ category = "Vehicle/Mileage" then "line_6_auto"
  else if category = "Cleaning" then "line_7_cleaning"
  else if category = "Maintenance/Repairs" then "line_14_repairs"
  else if category = "Platform Fees" then "line_8_commissions"
  else if category = "Professional Services (Accounting)"
    ∨ category = "Professional Services (Legal)" then "line_10_legal"
  else if category = "Mortgage Interest" then "line_12_mortgage_int"
  else if category = "Supplies (Guest)" ∨ category = "Supplies (Cleaning)" then "line_15_supplies"
  else if category = "Utilities (Electric)" ∨ category = "Utilities (Gas)"
    ∨ category = "Utilities (Water/Sewer)" ∨ category = "Utilities (Internet/Cable)"
    ∨ category = "Utilities (Trash)" then "line_17_utilities"
  else if category = "Depreciation" then "line_18_depreciation"
  else "line_19_other"

/-- `sched[line] += amount` for a line name in the range of `catLine`. -/
def addToLine (s : ScheduleE) (line : String) (amt : ℚ) : ScheduleE :=
  if line = "line_5_advertising" then { s with line_5_advertising := s.line_5_advertising + amt }
  else if line = "line_6_auto" then { s with line_6_auto := s.line_6_auto + amt }
  else if line = "line_7_cleaning" then { s with line_7_cleaning := s.line_7_cleaning + amt }
  else if line = "line_8_commissions" then { s with line_8_commissions := s.line_8_commissions + amt }
  else if line = "line_10_legal" then { s with line_10_legal := s.line_10_legal + amt }
  else if line = "line_12_mortgage_int" then { s with line_12_mortgage_int := s.line_12_mortgage_int + amt }
  else if line = "line_14_repairs" then { s with line_14_repairs := s.line_14_repairs + amt }
  else if line = "line_15_supplies" then { s with line_15_supplies := s.line_15_supplies + amt }
  else if line = "line_17_utilities" then { s with line_17_utilities := s.line_17_utilities + amt }
  else if line = "line_18_depreciation" then { s with line_18_depreciation := s.line_18_depreciation + amt }
  else { s with line_19_other := s.line_19_other + amt }

/-- `sum(v for k, v in sched.items() if k.startswith("line_") and k != "line_3_rents")`:
every `line_*` key except the rents line (order immaterial in exact
arithmetic). -/
def schedLineSum (s : ScheduleE) : ℚ :=
  s.line_5_advertising + s.line_6_auto + s.line_7_cleaning + s.line_8_commissions
    + s.line_9_insurance + s.line_10_legal + s.line_12_mortgage_int + s.line_14_repairs
    + s.line_15_supplies + s.line_16_taxes + s.line_17_utilities + s.line_18_depreciation
    + s.line_19_other

def schedYearBookings (pid : String) (bookings : List Booking) : List Booking :=
  bookings.filter (fun b => b.property_id == pid && b.status != "cancelled")

/-- `fair_rental_days`: nights of bookings touching the tax year, clipped to
`[Jan 1, Dec 31 + 1 day)`. -/
def schedFairDays (pid : String) (bookings : List Booking) (tax_year : ℤ) : ℤ :=
  (schedYearBookings pid bookings).foldl
    (fun acc b =>
      match b.check_in, b.check_out with
      | some b_in, some b_out =>
        if yearOf b_in = tax_year ∨ yearOf b_out = tax_year then
          acc + max ((min b_out (mkDate tax_year 12 31 + 1)) - (max b_in (mkDate tax_year 1 1))) 0
        else acc
      | _, _ => acc)
    0

/-- `gross`: payouts of bookings whose check-in parses and falls in the tax
year. -/
def schedGross (pid : String) (bookings : List Booking) (tax_year : ℤ) : ℚ :=
  (schedYearBookings pid bookings).foldl
    (fun acc b =>
      match b.check_in with
      | some b_in => if yearOf b_in = tax_year then acc + b.total_payout else acc
      | none => acc)
    0

/-- The `sched` dict literal before expenses are folded in. -/
def schedSeed (property_data : Property) (bookings : List Booking) (tax_year : ℤ) : ScheduleE :=
  { property_address := property_data.address
    fair_rental_days := schedFairDays property_data.property_id bookings tax_year
    line_3_rents := round2 (schedGross property_data.property_id bookings tax_year)
    line_5_advertising := 0, line_6_auto := 0, line_7_cleaning := 0, line_8_commissions := 0
    line_9_insurance := round2 property_data.insurance_annual
    line_10_legal := 0, line_12_mortgage_int := 0, line_14_repairs := 0, line_15_supplies := 0
    line_16_taxes := round2 property_data.property_tax_annual
    line_17_utilities := 0, line_18_depreciation := 0, line_19_other := 0
    total_expenses := 0, net_income := 0 }

/-- The expense fold of `generate_schedule_e_summary`. -/
def schedWithExpenses (property_data : Property) (bookings : List Booking)
    (expenses : List Expense) (tax_year : ℤ) : ScheduleE :=
  expenses.foldl
    (fun s exp =>
      if exp.property_id == property_data.property_id
          && (match exp.date with | some d => decide (yearOf d = tax_year) | none => false) then
        addToLine s (catLine exp.category) exp.amount
      else s)
    (schedSeed property_data bookings tax_year)

def generate_schedule_e_summary (property_data : Property) (bookings : List Booking)
    (expenses : List Expense) (tax_year : ℤ) : ScheduleE :=
  let s1 := schedWithExpenses property_data bookings expenses tax_year
  let total_exp := schedLineSum s1
  { s1 with
    total_expenses := round2 total_exp
    net_income := round2 (s1.line_3_rents - total_exp) }

/-! ## iCal import (`parse_ical` and friends, `str_logic.py:951`) -/

/-- Digits of a fixed-width zero-padded numeral. -/
def digitsVal (l : List Char) : ℤ :=
  l.foldl (fun a d => a * 10 + ((d.toNat : ℤ) - ('0'.toNat : ℤ))) 0

/-- `datetime.strptime(s, fmt)` accepts only calendar-valid dates. -/
def validYMD (y m d : ℤ) : Prop :=
  1 ≤ y ∧ y ≤ 9999 ∧ 1 ≤ m ∧ m ≤ 12 ∧ 1 ≤ d ∧ d ≤ daysInMonth y m

instance (y m d : ℤ) : Decidable (validYMD y m d) := by unfold validYMD; infer_instance

/-- `strptime(s, "%Y%m%d")` on the canonical zero-padded 8-digit iCal form. -/
def parseCompact8 (l : List Char) : Option ℤ :=
  if l.length = 8 ∧ l.all Char.isDigit then
    let y := digitsVal (l.take 4)
    let m := digitsVal ((l.drop 4).take 2)
    let d := digitsVal (l.drop 6)
    if validYMD y m d then some (mkDate y m d) else none
  else none

/-- `strptime(s, "%Y%m%dT%H%M%S")` (date part kept, `.date()`). -/
def parseCompact15 (l : List Char) : Option ℤ :=
  if l.length = 15 ∧ (l.take 8).all Char.isDigit ∧ l.get? 8 = some 'T'
      ∧ (l.drop 9).all Char.isDigit then
    let y := digitsVal (l.take 4)
    let m := digitsVal ((l.drop 4).take 2)
    let d := digitsVal ((l.drop 6).take 2)
    let hh := digitsVal ((l.drop 9).take 2)
    let mm := digitsVal ((l.drop 11).take 2)
    let ss := digitsVal (l.drop 13)
    if validYMD y m d ∧ hh ≤ 23 ∧ mm ≤ 59 ∧ ss ≤ 59 then some (mkDate y m d) else none
  else none

/-- `_parse_ical_date`: strip, drop trailing `Z`s (`rstrip("Z")`), try
`%Y%m%d` then `%Y%m%dT%H%M%S`; `None` on failure. -/
def _parse_ical_date (s : String) : Option ℤ :=
  if s = "" then none
  else
    let l := ((chTrim s.toList).reverse.dropWhile (· == 'Z')).reverse
    match parseCompact8 l with
    | some d => some d
    | none => parseCompact15 l

/-- `_extract_guest_name(summary, platform)`. -/
def _extract_guest_name (summary platform : String) : String :=
  if summary = "" then "Guest (iCal)"
  else
    let s := chTrim summary.toList
    let sl := chLower s
    if sl = "reserved".toList ∨ sl = "airbnb (reserved)".toList then "Airbnb Guest"
    else
      match chSplitOnce " - ".toList s with
      | some (p0, p1) =>
        -- `" - " in s` holds exactly when the split succeeds
        if chLower p0 = "reserved".toList ∨ chLower p0 = "booked".toList
            ∨ chLower p0 = "vrbo".toList ∨ chLower p0 = "booking.com".toList then
          let name := chTrim p1
          if name ≠ [] ∧ ¬ (chLower name = "reserved".toList ∨ chLower name = "booked".toList) then
            String.mk name
          else platform ++ " Guest"
        else if chTrim p1 ≠ [] then String.mk (chTrim p1) else platform ++ " Guest"
      | none =>
        let afterParen :=
          if chContains s "(".toList then
            let name := chTrim (s.takeWhile (· ≠ '('))
            if name ≠ [] then some (String.mk name) else none
          else none
        match afterParen with
        | some n => n
        | none =>
          let s' := ["Airbnb ", "VRBO ", "Booking.com "].foldl
            (fun acc p => if chStartsWith p.toList acc then acc.drop p.length else acc) s
          if s' ≠ [] then String.mk s' else platform ++ " Guest"

/-- The blocked-date keyword list of `_process_ical_event`. -/
def blockedKeywords : List String :=
  ["not available", "blocked", "closed", "airbnb (not available)",
   "owner block", "maintenance", "unavailable"]

/-- `any(kw in summary.lower() for kw in [...])`. -/
def isBlockedSummary (summary : String) : Bool :=
  blockedKeywords.any (fun kw => chContains (chLower summary.toList) kw.toList)

/-- Result of `_process_ical_event`: a blocked interval or a booking. -/
inductive IcalParsed where
  | blockedI : BlockedInterval → IcalParsed
  | bookingI : Booking → IcalParsed
  deriving DecidableEq

/-- An iCal `VEVENT` as a key/value dict: assignment prepends, lookup takes
the first hit, so the last assignment to a key wins, as for a Python dict. -/
abbrev EventDict := List (String × String)

def dictSet (d : EventDict) (k v : String) : EventDict := (k, v) :: d

def dictGet (d : EventDict) (k dflt : String) : String :=
  match List.lookup k d with
  | some v => v
  | none => dflt

/-- `phone` extraction from DESCRIPTION (`for part in description.split("\n")`,
last part containing "phone" wins; empty when it has no colon). -/
def phoneFromDesc (description : String) : String :=
  if description ≠ "" ∧ chContains (chLower description.toList) "phone".toList then
    (chSplitBy (· == '\n') description.toList).foldl
      (fun acc part =>
        if chContains (chLower part) "phone".toList then
          match chSplitOnce ":".toList part with
          | some (_, a) => String.mk (chTrim a)
          | none => ""
        else acc)
      ""
  else ""

/-- `num_guests` extraction from DESCRIPTION (first number of the last part
containing "guest"; default 2). -/
def guestsFromDesc (description : String) : ℕ :=
  if description ≠ "" then
    (chSplitBy (· == '\n') description.toList).foldl
      (fun acc part =>
        if chContains (chLower part) "guest".toList then
          match firstDigitRun part with
          | some n => n
          | none => acc
        else acc)
      2
  else 2

/-- `uid[:40]`. -/
def takeChars (s : String) (n : ℕ) : String := String.mk (s.toList.take n)

/-- `_process_ical_event(event, property_id, platform, default_rate,
cleaning_fee)`; `bid` stands for the `generate_id()` call and `today` for
`date.today()`. -/
def _process_ical_event (event : EventDict) (property_id platform : String)
    (default_rate cleaning_fee : ℚ) (bid : String) (today : ℤ) : Option IcalParsed :=
  let summary := dictGet event "SUMMARY" ""
  let dtstart := dictGet event "DTSTART" ""
  let dtend := dictGet event "DTEND" ""
  let uid := dictGet event "UID" ""
  let description := dictGet event "DESCRIPTION" ""
  match _parse_ical_date dtstart, _parse_ical_date dtend with
  | some check_in, some check_out =>
    if isBlockedSummary summary then
      some (.blockedI ⟨check_in, check_out, summary, property_id⟩)
    else
      let num_nights := max (check_out - check_in) 1
      let pf := calculate_payout default_rate (num_nights : ℚ) cleaning_fee
      some (.bookingI
        { booking_id := bid
          property_id := property_id
          guest_name := _extract_guest_name summary platform
          guest_phone := phoneFromDesc description
          guest_email := ""
          num_guests := guestsFromDesc description
          check_in := some check_in
          check_out := some check_out
          num_nights := num_nights
          nightly_rate := default_rate
          cleaning_fee := cleaning_fee
          total_payout := pf.1
          platform := platform
          platform_fee := pf.2
          status := if check_in > today then "confirmed"
                    else if check_out > today then "checked_in" else "checked_out"
          special_requests := ""
          guest_notes := if uid ≠ "" then "Imported from iCal. UID: " ++ takeChars uid 40
                         else "Imported from iCal"
          turnover_status := "pending"
          cleaner_confirmed := false
          rating_given := 0
          created_date := some today
          ical_uid := uid })
  | _, _ => none

/-- State of the `parse_ical` line loop. -/
structure ParseState where
  in_event : Bool
  ev : EventDict
  bks : List Booking
  blk : List BlockedInterval

/-- One line of the `parse_ical` loop.  The booking id for the `n`-th
emitted booking is `gen n` (`generate_id()` call order). -/
def icalStep (property_id platform : String) (default_rate cleaning_fee : ℚ)
    (gen : ℕ → String) (today : ℤ) (s : ParseState) (rawLine : List Char) : ParseState :=
  let line := chTrim rawLine
  if line = "BEGIN:VEVENT".toList then { s with in_event := true, ev := [] }
  else if line = "END:VEVENT".toList then
    if s.ev ≠ [] then
      match _process_ical_event s.ev property_id platform default_rate cleaning_fee
          (gen s.bks.length) today with
      | some (.blockedI b) => { in_event := false, ev := [], bks := s.bks, blk := s.blk ++ [b] }
      | some (.bookingI b) => { in_event := false, ev := [], bks := s.bks ++ [b], blk := s.blk }
      | none => { s with in_event := false, ev := [] }
    else { s with in_event := false, ev := [] }
  else if s.in_event then
    match chSplitOnce ":".toList line with
    | some (key, val) =>
      -- `key_base = key.split(";")[0]`
      { s with ev := dictSet s.ev (String.mk (key.takeWhile (· ≠ ';'))) (String.mk val) }
    | none => s
  else s

/-- `parse_ical(ical_text, property_id, platform, default_rate, cleaning_fee)`
returning `(bookings, blocked)`. -/
def parse_ical (ical_text : String) (property_id : String) (platform : String := "Airbnb")
    (default_rate : ℚ := 150) (cleaning_fee : ℚ := 75)
    (gen : ℕ → String := fun _ => "") (today : ℤ := 0) :
    List Booking × List BlockedInterval :=
  if chTrim ical_text.toList = [] then ([], [])
  else
    let lines := chSplitBy (fun c => c == '\n' || c == '\r')
      (stripFoldTab (stripFoldSpace ical_text.toList))
    let final := lines.foldl (icalStep property_id platform default_rate cleaning_fee gen today)
      { in_event := false, ev := [], bks := [], blk := [] }
    (final.bks, final.blk)

/-! ## Deduplication (`deduplicate_ical_bookings`, `str_logic.py:1143`) -/

/-- The dedup identity key
`(b.get("property_id",""), b.get("check_in",""), b.get("check_out",""))`. -/
def bookingKey (b : Booking) : String × Option ℤ × Option ℤ :=
  (b.property_id, b.check_in, b.check_out)

/-- `existing_keys.add(key)` (set add on a membership-only list). -/
def addKey (s : List (String × Option ℤ × Option ℤ)) (k : String × Option ℤ × Option ℤ) :
    List (String × Option ℤ × Option ℤ) :=
  if k ∈ s then s else k :: s

/-- The `for b in new_bookings:` loop of `deduplicate_ical_bookings`. -/
def dedupGo (ks : List (String × Option ℤ × Option ℤ)) (uniq : List Booking) (d : ℕ) :
    List Booking → List Booking × ℕ
  | [] => (uniq, d)
  | b :: bs =>
    if bookingKey b ∈ ks then dedupGo ks uniq (d + 1) bs
    else dedupGo (addKey ks (bookingKey b)) (uniq ++ [b]) d bs

def deduplicate_ical_bookings (existing_bookings new_bookings : List Booking) :
    List Booking × ℕ :=
  let existing_keys := existing_bookings.foldl (fun s b => addKey s (bookingKey b)) []
  dedupGo existing_keys [] 0 new_bookings

/-- Deduplication as the specification words it: a candidate is a duplicate
iff its `(property_id, check_in, check_out)` key appears in the existing
ledger snapshot or on an **earlier surviving** candidate of the same batch;
survivors are returned in order. -/
def dedupSpecGo (ledgerKeys seen : List (String × Option ℤ × Option ℤ)) :
    List Booking → List Booking
  | [] => []
  | b :: bs =>
    if bookingKey b ∈ ledgerKeys ∨ bookingKey b ∈ seen then dedupSpecGo ledgerKeys seen bs
    else b :: dedupSpecGo ledgerKeys (bookingKey b :: seen) bs

/-- The part of a `_process_ical_event` result that does not depend on the
generated booking id or on today's date: a blocked interval in full, a
candidate booking only through its dedup key. -/
def parsedKey : IcalParsed → BlockedInterval ⊕ (String × Option ℤ × Option ℤ)
  | .blockedI b => Sum.inl b
  | .bookingI b => Sum.inr (bookingKey b)

/-- Canonical form of `Option.map parsedKey (_process_ical_event ...)`: it
depends only on the event dictionary and the property id. -/
def canonProcess (ev : EventDict) (pid : String) :
    Option (BlockedInterval ⊕ (String × Option ℤ × Option ℤ)) :=
  match _parse_ical_date (dictGet ev "DTSTART" ""), _parse_ical_date (dictGet ev "DTEND" "") with
  | some ci, some co =>
      if isBlockedSummary (dictGet ev "SUMMARY" "") then
        some (Sum.inl ⟨ci, co, dictGet ev "SUMMARY" "", pid⟩)
      else some (Sum.inr (pid, some ci, some co))
  | _, _ => none

/-! ## Network fetch (`fetch_ical_from_url`, `str_logic.py:1132`) -/

/-- `fetch_ical_from_url(url)`.  The single blocking
`urllib.request.urlopen(...).read().decode("utf-8", errors="replace")`
attempt is modelled by an oracle `net` giving the outcome of each would-be
attempt in order (`Except.error e` = any raised exception, rendered as the
string `str(e)`; decoding itself cannot raise under `errors="replace"`).
The function makes exactly one attempt: it consults `net 0` only. -/
def fetch_ical_from_url (net : ℕ → Except String String) (url : String) : String :=
  match net 0 with
  | Except.ok body => body
  | Except.error e => "ERROR: " ++ e

/-! ## Specification-side formulas and concrete instances

`overlapNights` / `proratedShare` state the window aggregation of
`calculate_property_metrics` the way §4.2 of the specification words it:
each booking contributes its overlapping night count, and revenue prorated
linearly by overlap over total nights (zero-total-night bookings
contributing zero, the division guarded by `max _ 1`). -/

def overlapNights (start_date end_date : ℤ) (b : Booking) : ℤ :=
  match b.check_in, b.check_out with
  | some b_in, some b_out => max (min b_out end_date - max b_in start_date) 0
  | _, _ => 0

def proratedShare (start_date end_date : ℤ) (b : Booking) : ℚ :=
  match b.check_in, b.check_out with
  | some b_in, some b_out =>
    let nights := max (min b_out end_date - max b_in start_date) 0
    if nights > 0 then
      b.total_payout * ((nights : ℚ) / ((max (b_out - b_in) 1 : ℤ) : ℚ))
    else 0
  | _, _ => 0

/-- Overlapping nights summed over the property's non-cancelled bookings. -/
def specNights (bookings : List Booking) (pid : String) (s e : ℤ) : ℤ :=
  ((prop_bookings_for bookings pid).map (overlapNights s e)).sum

/-- Prorated revenue summed over the property's non-cancelled bookings. -/
def specRevenue (bookings : List Booking) (pid : String) (s e : ℤ) : ℚ :=
  ((prop_bookings_for bookings pid).map (proratedShare s e)).sum

/-- The ratings collected by the metrics loop (date-valid bookings with a
positive rating, in order). -/
def specRatings : List Booking → List ℚ
  | [] => []
  | b :: bs =>
    (match b.check_in, b.check_out with
     | some _, some _ => if b.rating_given > 0 then [b.rating_given] else []
     | _, _ => []) ++ specRatings bs

/-! Concrete instances used by the claim theorems. -/

/-- Property with no recurring finance attributes (C2 counterexample). -/
def c2pd : Property := { property_id := "p1" }

/-- A one-cent booking inside the 2026 tax year. -/
def c2bk : Booking :=
  { property_id := "p1", check_in := some (mkDate 2026 5 1),
    check_out := some (mkDate 2026 5 2), num_nights := 1, total_payout := 1/100 }

/-- An expense of exactly 12.5 cents (`$0.125`, an exact binary float). -/
def c2exp : Expense :=
  { property_id := "p1", category := "Other", amount := 1/8,
    date := some (mkDate 2026 6 1) }

/-- Whole-cent property (C2 witness input). -/
def c2wpd : Property := { property_id := "p1", insurance_annual := 1234/100 }

/-- The §8 interval-correctness booking: 2026-03-01 → 2026-03-04. -/
def c4b (payout : ℚ) : Booking :=
  { property_id := "p", check_in := some (mkDate 2026 3 1),
    check_out := some (mkDate 2026 3 4), num_nights := 3, total_payout := payout }

/-- A zero-length stay (check-in equals check-out). -/
def c4z : Booking :=
  { property_id := "p", check_in := some (mkDate 2026 7 1),
    check_out := some (mkDate 2026 7 1), total_payout := 500 }

def c5b1 : Booking :=
  { booking_id := "b1", property_id := "p", check_in := some (mkDate 2026 3 1),
    check_out := some (mkDate 2026 3 4), total_payout := 300 }

def c5b2 : Booking :=
  { booking_id := "b2", property_id := "p", check_in := some (mkDate 2026 3 1),
    check_out := some (mkDate 2026 3 4), total_payout := 330 }

/-- §8 gap-analyzer bookings: `[Mar-1, Mar-3)` and `[Mar-6, Mar-9)`. -/
def c6b1 : Booking :=
  { booking_id := "g1", property_id := "p", check_in := some (mkDate 2026 3 1),
    check_out := some (mkDate 2026 3 3) }

def c6b2 : Booking :=
  { booking_id := "g2", property_id := "p", check_in := some (mkDate 2026 3 6),
    check_out := some (mkDate 2026 3 9) }

/-- A feed whose single event is an owner block. -/
def c7feed : String :=
  "BEGIN:VEVENT\nSUMMARY:Not available - Owner block\nDTSTART;VALUE=DATE:20260301\nDTEND;VALUE=DATE:20260305\nEND:VEVENT"

/-- A feed whose single event has `DTEND = DTSTART` (zero-length stay). -/
def c10feed : String :=
  "BEGIN:VEVENT\nSUMMARY:Guest X\nDTSTART;VALUE=DATE:20260301\nDTEND;VALUE=DATE:20260301\nEND:VEVENT"

/-- The same zero-length event as a parsed `VEVENT` dict. -/
def c10ev : EventDict :=
  [("SUMMARY", "Guest X"), ("DTSTART", "20260301"), ("DTEND", "20260301")]

/-- The booking `_process_ical_event` emits for `c10ev`. -/
def c10bk : Booking :=
  match _process_ical_event c10ev "p1" "Airbnb" 150 75 "id" 0 with
  | some (.bookingI b) => b
  | _ => {}
/-- The owner-block event of `c7feed` as a parsed `VEVENT` dict. -/
def c7ev : EventDict :=
  [("SUMMARY", "Not available - Owner block"), ("DTSTART", "20260301"), ("DTEND", "20260305")]

/-- A cancelled booking (C8 witness input). -/
def c8b : Booking :=
  { booking_id := "x", property_id := "p", status := "cancelled",
    check_in := some (mkDate 2026 3 1), check_out := some (mkDate 2026 3 4) }

/-! # Theorems

Helper lemmas first (shared across claims), then one theorem per claim.
-/

/-! ## Rounding lemmas -/

theorem rhe_intCast (n : ℤ) : rhe (n : ℚ) = n := by
  unfold rhe
  rw [Int.fract_intCast, Int.floor_intCast]
  norm_num

theorem rhe_intCast_add_half (n : ℤ) :
    rhe ((n : ℚ) + 1/2) = if 2 ∣ n then n else n + 1 := by
  have hfr : Int.fract ((n : ℚ) + 1/2) = 1/2 := by
    rw [Int.fract_int_add, Int.fract]
    norm_num
  have hfl : ⌊(n : ℚ) + 1/2⌋ = n := by
    rw [Int.floor_int_add]
    norm_num
  unfold rhe
  rw [hfr, hfl]
  norm_num

theorem round2_eq (q : ℚ) : round2 q = ((rhe (q * 100) : ℤ) : ℚ) / 100 := rfl

theorem round2_of_eq_int {q : ℚ} {n : ℤ} (h : q * 100 = (n : ℚ)) :
    round2 q = (n : ℚ) / 100 := by
  rw [round2_eq, h, rhe_intCast]

theorem round2_of_eq_add_half {q : ℚ} {n : ℤ} (h : q * 100 = (n : ℚ) + 1/2) :
    round2 q = ((if 2 ∣ n then n else n + 1 : ℤ) : ℚ) / 100 := by
  rw [round2_eq, h, rhe_intCast_add_half]

theorem round1_eq (q : ℚ) : round1 q = ((rhe (q * 10) : ℤ) : ℚ) / 10 := rfl

theorem round1_of_eq_int {q : ℚ} {n : ℤ} (h : q * 10 = (n : ℚ)) :
    round1 q = (n : ℚ) / 10 := by
  rw [round1_eq, h, rhe_intCast]

theorem rhe_nonneg {q : ℚ} (h : 0 ≤ q) : 0 ≤ rhe q := by
  have hf : (0 : ℤ) ≤ ⌊q⌋ := Int.floor_nonneg.mpr h
  unfold rhe
  split_ifs <;> omega

theorem rhe_le_intCast {q : ℚ} {n : ℤ} (h : q ≤ (n : ℚ)) : rhe q ≤ n := by
  have hf : ⌊q⌋ ≤ n := by
    have := Int.floor_le_floor h
    rwa [Int.floor_intCast] at this
  have hd : Int.fract q = q - ⌊q⌋ := rfl
  unfold rhe
  split_ifs with a b c
  · exact hf
  · have hq : (⌊q⌋ : ℚ) < q := by
      have h2 : (0 : ℚ) < Int.fract q := by linarith
      rw [hd] at h2
      linarith
    have h3 : (⌊q⌋ : ℚ) < (n : ℚ) := lt_of_lt_of_le hq h
    have := Int.cast_lt.mp h3
    omega
  · exact hf
  · have hq : (⌊q⌋ : ℚ) < q := by
      have h2 : (0 : ℚ) < Int.fract q := by linarith
      rw [hd] at h2
      linarith
    have h3 : (⌊q⌋ : ℚ) < (n : ℚ) := lt_of_lt_of_le hq h
    have := Int.cast_lt.mp h3
    omega

theorem rhe_sub_int (n : ℤ) (q : ℚ) (h : Int.fract q ≠ 1/2) :
    rhe ((n : ℚ) - q) = n - rhe q := by
  have hd : Int.fract q = q - ⌊q⌋ := rfl
  rcases eq_or_ne (Int.fract q) 0 with h0 | h0
  · have hq : q = (⌊q⌋ : ℚ) := by rw [hd] at h0; linarith
    rw [hq, ← Int.cast_sub, rhe_intCast, rhe_intCast]
  · have hpos : (0 : ℚ) < Int.fract q := lt_of_le_of_ne (Int.fract_nonneg q) (Ne.symm h0)
    have hlt1 : Int.fract q < 1 := Int.fract_lt_one q
    have hq1 : (⌊q⌋ : ℚ) < q := by rw [hd] at hpos; linarith
    have hq2 : q < (⌊q⌋ : ℚ) + 1 := Int.lt_floor_add_one q
    have hfl : ⌊(n : ℚ) - q⌋ = n - ⌊q⌋ - 1 := by
      rw [Int.floor_eq_iff]
      constructor
      · push_cast
        linarith
      · push_cast
        linarith
    have hfr : Int.fract ((n : ℚ) - q) = 1 - Int.fract q := by
      rw [sub_eq_add_neg, Int.fract_int_add, Int.fract_neg h0]
    rcases lt_or_gt_of_ne h with hlt2 | hgt2
    · have e1 : rhe q = ⌊q⌋ := by unfold rhe; rw [if_pos hlt2]
      have e2 : rhe ((n : ℚ) - q) = ⌊(n : ℚ) - q⌋ + 1 := by
        unfold rhe
        rw [if_neg (by rw [hfr]; linarith), if_pos (by rw [hfr]; linarith)]
      rw [e1, e2, hfl]; ring
    · have e1 : rhe q = ⌊q⌋ + 1 := by unfold rhe; rw [if_neg (by linarith), if_pos hgt2]
      have e2 : rhe ((n : ℚ) - q) = ⌊(n : ℚ) - q⌋ := by
        unfold rhe
        rw [if_pos (by rw [hfr]; linarith)]
      rw [e1, e2, hfl]; ring

/-! ## C3 -/

/-- **C3.** `calculate_payout` computes `gross = nightly_rate × nights +
cleaning_fee`, `platform_fee = gross × fee_rate` (default `0.03`), and net
payout `gross − platform_fee`, each rounded to cents; in particular
`rate=100, nights=3, cleaning_fee=50, fee_rate=0.03` yields gross `350`,
fee `10.50` and payout `339.50`. -/
theorem C3_calculate_payout :
    (∀ rate nights clean pct : ℚ,
      calculate_payout rate nights clean pct
        = (round2 ((rate * nights + clean) - (rate * nights + clean) * pct),
           round2 ((rate * nights + clean) * pct)))
    ∧ (∀ rate nights clean : ℚ,
        calculate_payout rate nights clean = calculate_payout rate nights clean (3/100))
    ∧ (100 : ℚ) * 3 + 50 = 350
    ∧ calculate_payout 100 3 50 = ((339.5 : ℚ), (10.5 : ℚ)) := by
  refine ⟨fun _ _ _ _ => rfl, fun _ _ _ => rfl, by norm_num, ?_⟩
  unfold calculate_payout
  rw [round2_of_eq_int (n := 33950) (by norm_num), round2_of_eq_int (n := 1050) (by norm_num)]
  norm_num

/-! ## C9 -/

/-- **C9.** `fetch_ical_from_url` never raises to its caller: it is a total
function of the outcome of its single network attempt; an attempt failing
with exception `e` yields the labeled failure string `"ERROR: " ++ e`
rather than a crash, a successful attempt yields the decoded body, and the
result depends only on attempt `0` — there is no internal retry. -/
theorem C9_fetch_never_raises :
    ∀ (net : ℕ → Except String String) (url : String),
      (∀ e, net 0 = Except.error e → fetch_ical_from_url net url = "ERROR: " ++ e)
      ∧ (∀ body, net 0 = Except.ok body → fetch_ical_from_url net url = body)
      ∧ (∀ net2 : ℕ → Except String String, net2 0 = net 0 →
          fetch_ical_from_url net2 url = fetch_ical_from_url net url) := by
  intro net url
  refine ⟨fun e he => ?_, fun body hb => ?_, fun net2 h2 => ?_⟩
  · unfold fetch_ical_from_url; rw [he]
  · unfold fetch_ical_from_url; rw [hb]
  · unfold fetch_ical_from_url; rw [h2]

/-- Witness for C9: a failing attempt at a concrete URL yields the labeled
failure string. -/
theorem C9_fetch_witness :
    ((fun _ => Except.error "timeout") : ℕ → Except String String) 0
        = Except.error "timeout"
    ∧ fetch_ical_from_url (fun _ => Except.error "timeout") "https://x" = "ERROR: timeout" := by
  refine ⟨rfl, ?_⟩
  exact (C9_fetch_never_raises (fun _ => Except.error "timeout") "https://x").1 "timeout" rfl
/-! ## C2: Schedule-E total invariant -/

theorem addToLine_line3 (s : ScheduleE) (line : String) (amt : ℚ) :
    (addToLine s line amt).line_3_rents = s.line_3_rents := by
  unfold addToLine
  by_cases h1 : line = "line_5_advertising"
  · rw [if_pos h1]
  rw [if_neg h1]
  by_cases h2 : line = "line_6_auto"
  · rw [if_pos h2]
  rw [if_neg h2]
  by_cases h3 : line = "line_7_cleaning"
  · rw [if_pos h3]
  rw [if_neg h3]
  by_cases h4 : line = "line_8_commissions"
  · rw [if_pos h4]
  rw [if_neg h4]
  by_cases h5 : line = "line_10_legal"
  · rw [if_pos h5]
  rw [if_neg h5]
  by_cases h6 : line = "line_12_mortgage_int"
  · rw [if_pos h6]
  rw [if_neg h6]
  by_cases h7 : line = "line_14_repairs"
  · rw [if_pos h7]
  rw [if_neg h7]
  by_cases h8 : line = "line_15_supplies"
  · rw [if_pos h8]
  rw [if_neg h8]
  by_cases h9 : line = "line_17_utilities"
  · rw [if_pos h9]
  rw [if_neg h9]
  by_cases h10 : line = "line_18_depreciation"
  · rw [if_pos h10]
  rw [if_neg h10]

theorem foldl_addToLine_line3 (pid : String) (ty : ℤ) (exps : List Expense) :
    ∀ init : ScheduleE,
      (exps.foldl (fun s exp =>
        if exp.property_id == pid
            && (match exp.date with | some d => decide (yearOf d = ty) | none => false) then
          addToLine s (catLine exp.category) exp.amount
        else s) init).line_3_rents
      = init.line_3_rents := by
  induction exps with
  | nil => intro init; rfl
  | cons e es ih =>
    intro init
    rw [List.foldl_cons, ih]
    by_cases hc : (e.property_id == pid
        && (match e.date with | some d => decide (yearOf d = ty) | none => false)) = true
    · rw [if_pos hc, addToLine_line3]
    · rw [if_neg hc]

theorem schedWithExpenses_line3 (property_data : Property) (bookings : List Booking)
    (expenses : List Expense) (tax_year : ℤ) :
    (schedWithExpenses property_data bookings expenses tax_year).line_3_rents
      = round2 (schedGross property_data.property_id bookings tax_year) := by
  unfold schedWithExpenses
  rw [foldl_addToLine_line3]
  rfl

/-- **C2 (amended).** The Schedule-E identity
`net_income + total_expenses == line_3_rents` holds exactly whenever the
exact sum of the mapped expense lines is not an exact half-cent tie (in
particular whenever every expense amount and the property's recurring
insurance/tax attributes are whole-cent values); at a half-cent tie the two
independent bankers' roundings can disagree by one cent (see
`C2_counterexample`). -/
theorem C2_schedule_e_total (property_data : Property) (bookings : List Booking)
    (expenses : List Expense) (tax_year : ℤ)
    (h : Int.fract (100 * schedLineSum
        (generate_schedule_e_summary property_data bookings expenses tax_year)) ≠ 1/2) :
    (generate_schedule_e_summary property_data bookings expenses tax_year).net_income
      + (generate_schedule_e_summary property_data bookings expenses tax_year).total_expenses
      = (generate_schedule_e_summary property_data bookings expenses tax_year).line_3_rents := by
  have hnet : (generate_schedule_e_summary property_data bookings expenses tax_year).net_income
      = round2 ((schedWithExpenses property_data bookings expenses tax_year).line_3_rents
          - schedLineSum (schedWithExpenses property_data bookings expenses tax_year)) := rfl
  have htot : (generate_schedule_e_summary property_data bookings expenses tax_year).total_expenses
      = round2 (schedLineSum (schedWithExpenses property_data bookings expenses tax_year)) := rfl
  have hl3r : (generate_schedule_e_summary property_data bookings expenses tax_year).line_3_rents
      = (schedWithExpenses property_data bookings expenses tax_year).line_3_rents := rfl
  have hsum : schedLineSum (generate_schedule_e_summary property_data bookings expenses tax_year)
      = schedLineSum (schedWithExpenses property_data bookings expenses tax_year) := rfl
  rw [hsum] at h
  rw [hnet, htot, hl3r, schedWithExpenses_line3]
  set T := schedLineSum (schedWithExpenses property_data bookings expenses tax_year) with hT
  set N := rhe (schedGross property_data.property_id bookings tax_year * 100) with hN
  have hl3v : round2 (schedGross property_data.property_id bookings tax_year) = ((N : ℤ) : ℚ) / 100 :=
    round2_eq _
  rw [hl3v]
  have key : round2 ((N : ℚ) / 100 - T) = ((N - rhe (100 * T) : ℤ) : ℚ) / 100 := by
    rw [round2_eq]
    have harg : ((N : ℚ) / 100 - T) * 100 = (N : ℚ) - 100 * T := by ring
    rw [harg, rhe_sub_int N (100 * T) h]
  have h4 : round2 T = ((rhe (T * 100) : ℤ) : ℚ) / 100 := round2_eq T
  rw [key, h4, mul_comm (100 : ℚ) T]
  push_cast
  ring

/-- **C2 counterexample.** With a booking paying `$0.01` and a single
expense of `$0.125` (exactly representable, an exact half-cent), the code's
two independent roundings give `net_income = -0.12` and
`total_expenses = 0.12`, so `net_income + total_expenses = 0 ≠ 0.01 =
line_3_rents`: the claimed identity fails on the code as stated. -/
theorem C2_counterexample :
    ¬ ((generate_schedule_e_summary c2pd [c2bk] [c2exp] 2026).net_income
      + (generate_schedule_e_summary c2pd [c2bk] [c2exp] 2026).total_expenses
      = (generate_schedule_e_summary c2pd [c2bk] [c2exp] 2026).line_3_rents) := by
  have hnet : (generate_schedule_e_summary c2pd [c2bk] [c2exp] 2026).net_income
      = round2 ((schedWithExpenses c2pd [c2bk] [c2exp] 2026).line_3_rents
          - schedLineSum (schedWithExpenses c2pd [c2bk] [c2exp] 2026)) := rfl
  have htot : (generate_schedule_e_summary c2pd [c2bk] [c2exp] 2026).total_expenses
      = round2 (schedLineSum (schedWithExpenses c2pd [c2bk] [c2exp] 2026)) := rfl
  have hl3r : (generate_schedule_e_summary c2pd [c2bk] [c2exp] 2026).line_3_rents
      = (schedWithExpenses c2pd [c2bk] [c2exp] 2026).line_3_rents := rfl
  have h0 : round2 (0 : ℚ) = 0 := by
    rw [round2_of_eq_int (n := 0) (by norm_num)]; norm_num
  have hy : yearOf (mkDate 2026 5 1) = 2026 := by decide
  have hl3 : (schedWithExpenses c2pd [c2bk] [c2exp] 2026).line_3_rents = 1/100 := by
    rw [schedWithExpenses_line3]
    have hg : schedGross c2pd.property_id [c2bk] 2026 = 0 + 1/100 := by
      unfold schedGross schedYearBookings
      simp [c2pd, c2bk, hy, List.filter_cons, List.filter_nil, List.foldl_cons, List.foldl_nil,
        (by decide : ("confirmed" : String) ≠ "cancelled")]
    rw [hg, round2_of_eq_int (n := 1) (by norm_num)]
    norm_num
  have hsched : schedWithExpenses c2pd [c2bk] [c2exp] 2026
      = addToLine (schedSeed c2pd [c2bk] 2026) (catLine c2exp.category) c2exp.amount := by
    unfold schedWithExpenses
    rw [List.foldl_cons, List.foldl_nil, if_pos (by decide)]
  have hT : schedLineSum (schedWithExpenses c2pd [c2bk] [c2exp] 2026) = 1/8 := by
    rw [hsched]
    have hcat : catLine c2exp.category = "line_19_other" := by decide
    rw [hcat]
    simp [addToLine, schedLineSum, schedSeed, c2pd, c2exp, h0]
  rw [hnet, htot, hl3r, hl3, hT]
  have hr1 : round2 ((1:ℚ)/100 - 1/8) = ((if 2 ∣ (-12 : ℤ) then (-12:ℤ) else -12 + 1 : ℤ) : ℚ) / 100 :=
    round2_of_eq_add_half (by norm_num)
  have hr2 : round2 ((1:ℚ)/8) = ((if 2 ∣ (12 : ℤ) then (12:ℤ) else 12 + 1 : ℤ) : ℚ) / 100 :=
    round2_of_eq_add_half (by norm_num)
  rw [hr1, hr2, if_pos (by decide), if_pos (by decide)]
  norm_num

/-- Witness for C2: a whole-cent input satisfies the no-half-cent-tie
hypothesis and the identity. -/
theorem C2_witness :
    Int.fract (100 * schedLineSum (generate_schedule_e_summary c2wpd [] [] 2026)) ≠ 1/2
    ∧ (generate_schedule_e_summary c2wpd [] [] 2026).net_income
        + (generate_schedule_e_summary c2wpd [] [] 2026).total_expenses
        = (generate_schedule_e_summary c2wpd [] [] 2026).line_3_rents := by
  have h0 : round2 (0 : ℚ) = 0 := by
    rw [round2_of_eq_int (n := 0) (by norm_num)]; norm_num
  have h1234 : round2 ((1234:ℚ)/100) = (1234 : ℚ)/100 := by
    rw [round2_of_eq_int (n := 1234) (by norm_num)]
    norm_num
  have hT : schedLineSum (generate_schedule_e_summary c2wpd [] [] 2026) = (1234 : ℚ)/100 := by
    show schedLineSum (schedSeed c2wpd [] 2026) = (1234 : ℚ)/100
    simp [schedLineSum, schedSeed, c2wpd, h0, h1234]
  have hfr : Int.fract (100 * schedLineSum (generate_schedule_e_summary c2wpd [] [] 2026)) ≠ 1/2 := by
    rw [hT]
    have he : (100 : ℚ) * (1234/100) = ((1234 : ℤ) : ℚ) := by norm_num
    rw [he, Int.fract_intCast]
    norm_num
  exact ⟨hfr, C2_schedule_e_total c2wpd [] [] 2026 hfr⟩
/-! ## C4/C5: window metrics -/

theorem round2_zero : round2 0 = 0 := by
  rw [round2_of_eq_int (n := 0) (by norm_num)]; norm_num

theorem metricsStep_eq (s e : ℤ) (R : ℚ) (N : ℤ) (rats : List ℚ) (b : Booking) :
    metricsStep s e (R, N, rats) b
      = (R + proratedShare s e b, N + overlapNights s e b,
         rats ++ (match b.check_in, b.check_out with
                  | some _, some _ => if b.rating_given > 0 then [b.rating_given] else []
                  | _, _ => [])) := by
  unfold metricsStep proratedShare overlapNights
  rcases hci : b.check_in with _ | ci <;> rcases hco : b.check_out with _ | co <;>
    simp only [hci, hco]
  · simp
  · simp
  · simp
  · set n := max (min co e - max ci s) 0 with hdefn
    have hn0 : 0 ≤ n := le_max_right _ _
    by_cases hn : n > 0
    · by_cases hr : b.rating_given > 0 <;> simp [hn, hr]
    · have hz : n = 0 := by omega
      by_cases hr : b.rating_given > 0 <;> simp [hn, hr, hz]

theorem metricsFold_eq (s e : ℤ) (l : List Booking) :
    ∀ (R : ℚ) (N : ℤ) (rats : List ℚ),
      l.foldl (metricsStep s e) (R, N, rats)
        = (R + (l.map (proratedShare s e)).sum, N + (l.map (overlapNights s e)).sum,
           rats ++ specRatings l) := by
  induction l with
  | nil => intro R N rats; simp [specRatings]
  | cons b bs ih =>
    intro R N rats
    rw [List.foldl_cons, metricsStep_eq, ih]
    simp only [List.map_cons, List.sum_cons, specRatings, Prod.mk.injEq, List.append_assoc]
    refine ⟨by ring, by omega, by trivial⟩

/-- The metric fields, as the specification's per-booking sums. -/
theorem metrics_fields (bookings : List Booking) (pid : String) (s e : ℤ) :
    (calculate_property_metrics bookings pid s e).total_revenue
        = round2 (specRevenue bookings pid s e)
    ∧ (calculate_property_metrics bookings pid s e).total_nights_booked
        = specNights bookings pid s e
    ∧ (calculate_property_metrics bookings pid s e).occupancy_rate
        = round1 (if (max (e - s) 1 : ℤ) ≠ 0 then
            ((specNights bookings pid s e : ℤ) : ℚ) / ((max (e - s) 1 : ℤ) : ℚ) * 100 else 0)
    ∧ (calculate_property_metrics bookings pid s e).avg_nightly_rate
        = round2 (if specNights bookings pid s e ≠ 0 then
            specRevenue bookings pid s e / ((specNights bookings pid s e : ℤ) : ℚ) else 0) := by
  unfold calculate_property_metrics
  simp only [metricsFold_eq]
  refine ⟨?_, ?_, ?_, ?_⟩ <;> simp [specRevenue, specNights]

theorem overlapNights_nonneg (s e : ℤ) (b : Booking) : 0 ≤ overlapNights s e b := by
  unfold overlapNights
  rcases b.check_in with _ | ci <;> rcases b.check_out with _ | co <;> simp

theorem specNights_nonneg (bookings : List Booking) (pid : String) (s e : ℤ) :
    0 ≤ specNights bookings pid s e := by
  unfold specNights
  apply List.sum_nonneg
  intro x hx
  simp only [List.mem_map] at hx
  obtain ⟨b, _, rfl⟩ := hx
  exact overlapNights_nonneg s e b

theorem overlapNights_degenerate (s e : ℤ) (b : Booking) (h : b.check_in = b.check_out) :
    overlapNights s e b = 0 := by
  unfold overlapNights
  rw [h]
  cases hd : b.check_out with
  | none => rfl
  | some d =>
    show max (min d e - max d s) 0 = 0
    have h1 := min_le_left d e
    have h2 := le_max_left d s
    omega

theorem proratedShare_degenerate (s e : ℤ) (b : Booking) (h : b.check_in = b.check_out) :
    proratedShare s e b = 0 := by
  unfold proratedShare
  rw [h]
  cases hd : b.check_out with
  | none => rfl
  | some d =>
    have h1 := min_le_left d e
    have h2 := le_max_left d s
    have h0 : max (min d e - max d s) 0 = 0 := by omega
    show (if max (min d e - max d s) 0 > 0 then
        b.total_payout * (((max (min d e - max d s) 0 : ℤ) : ℚ) / ((max (d - d) 1 : ℤ) : ℚ))
      else 0) = 0
    rw [if_neg (by omega)]

theorem specRevenue_middle_degenerate (bs1 bs2 : List Booking) (b : Booking)
    (pid : String) (s e : ℤ) (h : proratedShare s e b = 0) :
    specRevenue (bs1 ++ b :: bs2) pid s e = specRevenue (bs1 ++ bs2) pid s e := by
  unfold specRevenue prop_bookings_for
  rw [List.filter_append, List.filter_append, List.filter_cons]
  by_cases hb : (b.property_id == pid && b.status != "cancelled") = true
  · simp [hb, h]
  · simp [hb]

theorem specNights_middle_degenerate (bs1 bs2 : List Booking) (b : Booking)
    (pid : String) (s e : ℤ) (h : overlapNights s e b = 0) :
    specNights (bs1 ++ b :: bs2) pid s e = specNights (bs1 ++ bs2) pid s e := by
  unfold specNights prop_bookings_for
  rw [List.filter_append, List.filter_append, List.filter_cons]
  by_cases hb : (b.property_id == pid && b.status != "cancelled") = true
  · simp [hb, h]
  · simp [hb]

/-- **C4.** `calculate_property_metrics` prorates a partially-overlapping
booking linearly by overlapping nights over total nights (division guarded
by `max _ 1`, a zero-total-night booking contributing nothing to nights or
revenue); in particular the booking `2026-03-01 → 2026-03-04` measured over
the window `[2026-03-02, 2026-03-03)` contributes exactly 1 night and
`round2(total_payout / 3)` revenue. -/
theorem C4_linear_proration (payout : ℚ) :
    (calculate_property_metrics [c4b payout] "p" (mkDate 2026 3 2) (mkDate 2026 3 3)).total_nights_booked = 1
    ∧ (calculate_property_metrics [c4b payout] "p" (mkDate 2026 3 2) (mkDate 2026 3 3)).total_revenue
        = round2 (payout * (1/3))
    ∧ (∀ (bookings : List Booking) (pid : String) (s e : ℤ),
        (calculate_property_metrics bookings pid s e).total_revenue
          = round2 (specRevenue bookings pid s e)
        ∧ (calculate_property_metrics bookings pid s e).total_nights_booked
          = specNights bookings pid s e)
    ∧ (∀ (bs1 bs2 : List Booking) (b : Booking) (pid : String) (s e : ℤ),
        b.check_in = b.check_out →
        (calculate_property_metrics (bs1 ++ b :: bs2) pid s e).total_revenue
          = (calculate_property_metrics (bs1 ++ bs2) pid s e).total_revenue
        ∧ (calculate_property_metrics (bs1 ++ b :: bs2) pid s e).total_nights_booked
          = (calculate_property_metrics (bs1 ++ bs2) pid s e).total_nights_booked) := by
  have hA : min (mkDate 2026 3 4) (mkDate 2026 3 3) = mkDate 2026 3 3 := by decide
  have hB : max (mkDate 2026 3 1) (mkDate 2026 3 2) = mkDate 2026 3 2 := by decide
  have hC : (mkDate 2026 3 3 : ℤ) - mkDate 2026 3 2 = 1 := by decide
  have hD : max ((mkDate 2026 3 4 : ℤ) - mkDate 2026 3 1) 1 = 3 := by decide
  have hE : max (1 : ℤ) 0 = 1 := by decide
  have hcond : ((c4b payout).property_id == "p" && (c4b payout).status != "cancelled") = true := rfl
  have hN : specNights [c4b payout] "p" (mkDate 2026 3 2) (mkDate 2026 3 3) = 1 := by
    unfold specNights prop_bookings_for
    simp only [List.filter_cons, hcond, if_true, List.filter_nil, List.map_cons,
      List.map_nil, List.sum_cons, List.sum_nil]
    unfold overlapNights
    simp only [c4b]
    simp only [hA, hB, hC, hE]
    norm_num
  have hfields := metrics_fields [c4b payout] "p" (mkDate 2026 3 2) (mkDate 2026 3 3)
  refine ⟨?_, ?_, ?_, ?_⟩
  · rw [hfields.2.1, hN]
  · rw [hfields.1]
    have hR : specRevenue [c4b payout] "p" (mkDate 2026 3 2) (mkDate 2026 3 3)
        = payout * (((1 : ℤ) : ℚ) / ((3 : ℤ) : ℚ)) := by
      unfold specRevenue prop_bookings_for
      simp only [List.filter_cons, hcond, if_true, List.filter_nil, List.map_cons,
        List.map_nil, List.sum_cons, List.sum_nil]
      unfold proratedShare
      simp only [c4b]
      simp only [hA, hB, hC, hD, hE]
      rw [if_pos (by norm_num)]
      simp
    rw [hR]
    congr 1
  · intro bookings pid s e
    exact ⟨(metrics_fields bookings pid s e).1, (metrics_fields bookings pid s e).2.1⟩
  · intro bs1 bs2 b pid s e h
    constructor
    · rw [(metrics_fields (bs1 ++ b :: bs2) pid s e).1, (metrics_fields (bs1 ++ bs2) pid s e).1,
        specRevenue_middle_degenerate bs1 bs2 b pid s e (proratedShare_degenerate s e b h)]
    · rw [(metrics_fields (bs1 ++ b :: bs2) pid s e).2.1, (metrics_fields (bs1 ++ bs2) pid s e).2.1,
        specNights_middle_degenerate bs1 bs2 b pid s e (overlapNights_degenerate s e b h)]

/-- Witness for C4: the degenerate-stay conjunct applied to a concrete
zero-length booking. -/
theorem C4_witness :
    c4z.check_in = c4z.check_out
    ∧ ((calculate_property_metrics ([] ++ c4z :: []) "p" (mkDate 2026 3 2) (mkDate 2026 3 3)).total_revenue
        = (calculate_property_metrics ([] ++ []) "p" (mkDate 2026 3 2) (mkDate 2026 3 3)).total_revenue
      ∧ (calculate_property_metrics ([] ++ c4z :: []) "p" (mkDate 2026 3 2) (mkDate 2026 3 3)).total_nights_booked
        = (calculate_property_metrics ([] ++ []) "p" (mkDate 2026 3 2) (mkDate 2026 3 3)).total_nights_booked) :=
  ⟨by decide, (C4_linear_proration 0).2.2.2 [] [] c4z "p" (mkDate 2026 3 2) (mkDate 2026 3 3) (by decide)⟩

/-- **C5 (amended).** The occupancy rate is overlapping nights over the
(`max _ 1`-guarded) window length, as a percentage rounded to one decimal;
it is always ≥ 0, and it lies within [0, 100] whenever the summed overlap
does not exceed the window length (for example when stays do not overlap
each other) — but the code performs no clamping, so overlapping stays can
push it above 100 (see `C5_counterexample`).  The average nightly rate is
revenue/nights rounded to cents, and 0 when there are no nights. -/
theorem C5_occupancy_and_rate (bookings : List Booking) (pid : String) (s e : ℤ) :
    (calculate_property_metrics bookings pid s e).occupancy_rate
        = round1 (((specNights bookings pid s e : ℤ) : ℚ) / ((max (e - s) 1 : ℤ) : ℚ) * 100)
    ∧ 0 ≤ (calculate_property_metrics bookings pid s e).occupancy_rate
    ∧ (specNights bookings pid s e ≤ max (e - s) 1 →
        (calculate_property_metrics bookings pid s e).occupancy_rate ≤ 100)
    ∧ (calculate_property_metrics bookings pid s e).avg_nightly_rate
        = (if specNights bookings pid s e = 0 then 0
           else round2 (specRevenue bookings pid s e / ((specNights bookings pid s e : ℤ) : ℚ)))
    ∧ (specNights bookings pid s e = 0 →
        (calculate_property_metrics bookings pid s e).avg_nightly_rate = 0) := by
  obtain ⟨hrev, hn, hocc, havg⟩ := metrics_fields bookings pid s e
  have hD : (max (e - s) 1 : ℤ) ≠ 0 := by
    have := le_max_right (e - s) 1
    omega
  have hDpos : (0 : ℚ) < ((max (e - s) 1 : ℤ) : ℚ) := by
    have h1 : (1 : ℤ) ≤ max (e - s) 1 := le_max_right _ _
    exact_mod_cast lt_of_lt_of_le zero_lt_one h1
  have hN0 : 0 ≤ specNights bookings pid s e := specNights_nonneg bookings pid s e
  have hoccq : (calculate_property_metrics bookings pid s e).occupancy_rate
      = round1 (((specNights bookings pid s e : ℤ) : ℚ) / ((max (e - s) 1 : ℤ) : ℚ) * 100) := by
    rw [hocc, if_pos hD]
  have hargnn : (0 : ℚ) ≤ ((specNights bookings pid s e : ℤ) : ℚ) / ((max (e - s) 1 : ℤ) : ℚ) * 100 := by
    apply mul_nonneg
    · apply div_nonneg
      · exact_mod_cast hN0
      · exact le_of_lt hDpos
    · norm_num
  refine ⟨hoccq, ?_, ?_, ?_, ?_⟩
  · rw [hoccq, round1_eq]
    have h1 : 0 ≤ rhe (((specNights bookings pid s e : ℤ) : ℚ) / ((max (e - s) 1 : ℤ) : ℚ) * 100 * 10) :=
      rhe_nonneg (by linarith [hargnn])
    have h2 : (0 : ℚ) ≤ ((rhe (((specNights bookings pid s e : ℤ) : ℚ) / ((max (e - s) 1 : ℤ) : ℚ) * 100 * 10) : ℤ) : ℚ) := by
      exact_mod_cast h1
    exact div_nonneg h2 (by norm_num)
  · intro hle
    rw [hoccq, round1_eq]
    have harg : ((specNights bookings pid s e : ℤ) : ℚ) / ((max (e - s) 1 : ℤ) : ℚ) * 100 ≤ 100 := by
      have hq : ((specNights bookings pid s e : ℤ) : ℚ) / ((max (e - s) 1 : ℤ) : ℚ) ≤ 1 := by
        rw [div_le_one hDpos]
        exact_mod_cast hle
      nlinarith
    have hcast : ((1000 : ℤ) : ℚ) = 1000 := by norm_num
    have h1000 := rhe_le_intCast
      (q := ((specNights bookings pid s e : ℤ) : ℚ) / ((max (e - s) 1 : ℤ) : ℚ) * 100 * 10)
      (n := 1000) (by rw [hcast]; linarith)
    have h2 : ((rhe (((specNights bookings pid s e : ℤ) : ℚ) / ((max (e - s) 1 : ℤ) : ℚ) * 100 * 10) : ℤ) : ℚ)
        ≤ ((1000 : ℤ) : ℚ) := by exact_mod_cast h1000
    rw [hcast] at h2
    linarith
  · rw [havg]
    by_cases hN : specNights bookings pid s e = 0
    · rw [if_pos hN, if_neg (by omega)]
      exact round2_zero
    · rw [if_neg hN, if_pos hN]
  · intro hN
    rw [havg, if_neg (by omega)]
    exact round2_zero

/-- **C5 counterexample.** Two identical stays covering the whole window
give `occupancy_rate = 200`: the value is not clamped to [0, 100]. -/
theorem C5_counterexample :
    ¬ ((calculate_property_metrics [c5b1, c5b2] "p" (mkDate 2026 3 1) (mkDate 2026 3 4)).occupancy_rate
      ≤ 100) := by
  have hocc := (metrics_fields [c5b1, c5b2] "p" (mkDate 2026 3 1) (mkDate 2026 3 4)).2.2.1
  have hN : specNights [c5b1, c5b2] "p" (mkDate 2026 3 1) (mkDate 2026 3 4) = 6 := by decide
  have hD3 : max ((mkDate 2026 3 4 : ℤ) - mkDate 2026 3 1) 1 = 3 := by decide
  rw [hocc, hN, hD3, if_pos (by norm_num)]
  have harg : ((6 : ℤ) : ℚ) / ((3 : ℤ) : ℚ) * 100 * 10 = ((2000 : ℤ) : ℚ) := by norm_num
  rw [round1_eq, harg, rhe_intCast]
  norm_num

/-- Witness for C5: a single full-window stay satisfies the
no-overbooking hypothesis, and its occupancy is within bounds. -/
theorem C5_witness :
    specNights [c5b1] "p" (mkDate 2026 3 1) (mkDate 2026 3 4)
        ≤ max ((mkDate 2026 3 4 : ℤ) - mkDate 2026 3 1) 1
    ∧ (calculate_property_metrics [c5b1] "p" (mkDate 2026 3 1) (mkDate 2026 3 4)).occupancy_rate ≤ 100 :=
  ⟨by decide,
   (C5_occupancy_and_rate [c5b1] "p" (mkDate 2026 3 1) (mkDate 2026 3 4)).2.2.1 (by decide)⟩
/-! ## C6: gap analysis -/

theorem gapFold_walk (end_date : ℤ) (l : List Booking) :
    ∀ (acc : List Gap) (cur : ℤ),
      (if (l.foldl gapStep (acc, cur)).2 < end_date then
        (l.foldl gapStep (acc, cur)).1
          ++ [⟨(l.foldl gapStep (acc, cur)).2, end_date,
               end_date - (l.foldl gapStep (acc, cur)).2⟩]
      else (l.foldl gapStep (acc, cur)).1)
      = acc ++ gapWalkSpec end_date cur l := by
  induction l with
  | nil =>
    intro acc cur
    simp only [List.foldl_nil, gapWalkSpec]
    by_cases h : cur < end_date
    · rw [if_pos h, if_pos h]
    · rw [if_neg h, if_neg h, List.append_nil]
  | cons b bs ih =>
    intro acc cur
    rw [List.foldl_cons]
    rcases hci : b.check_in with _ | bin <;> rcases hco : b.check_out with _ | bout <;>
      simp only [gapStep, hci, hco, gapWalkSpec]
    · exact ih acc cur
    · exact ih acc cur
    · exact ih acc cur
    · by_cases hb : bin > cur
      · simp only [hb, if_true, ite_true]
        have h2 := ih (acc ++ [(⟨cur, bin, bin - cur⟩ : Gap)]) (max cur bout)
        rw [List.append_assoc, List.singleton_append] at h2
        exact h2
      · simp only [hb, if_false, ite_false]
        exact ih acc (max cur bout)

/-- **C6.** `get_gap_nights` is exactly the cursor walk of the
specification over the non-cancelled future-relevant bookings sorted by
check-in: a gap is emitted whenever a booking's check-in exceeds the
cursor, the cursor advances to the later of itself and the booking's
check-out, and a positive trailing gap to the window end is emitted; on
the §8 instance (`[Mar-1,Mar-3)`, `[Mar-6,Mar-9)`, today = Mar-1, window
ending Mar-10) the gaps are `[Mar-3,Mar-6)` (3 nights) and `[Mar-9,Mar-10)`
(1 night). -/
theorem C6_gap_walk :
    (∀ (today : ℤ) (bookings : List Booking) (pid : String) (lookahead_days : ℤ),
      get_gap_nights today bookings pid lookahead_days
        = gapWalkSpec (today + lookahead_days) today
            (sortStable ciLe (gapCandidates today bookings pid)))
    ∧ get_gap_nights (mkDate 2026 3 1) [c6b1, c6b2] "p" 9
        = [⟨mkDate 2026 3 3, mkDate 2026 3 6, 3⟩, ⟨mkDate 2026 3 9, mkDate 2026 3 10, 1⟩] := by
  constructor
  · intro today bookings pid look
    unfold get_gap_nights
    have h := gapFold_walk (today + look) (sortStable ciLe (gapCandidates today bookings pid)) [] today
    simpa using h
  · decide

/-! ## C7: blocked intervals never become bookings -/

/-- **C7.** An event whose summary matches one of the fixed
case-insensitive unavailability keywords is never returned as a booking by
`_process_ical_event` (it is dropped or classified blocked); and the feed
whose sole event is "Not available - Owner block" parses to no bookings
and exactly that blocked interval. -/
theorem C7_blocked_never_booking :
    (∀ (ev : EventDict) (pid plat : String) (rate clean : ℚ) (bid : String) (t : ℤ),
      isBlockedSummary (dictGet ev "SUMMARY" "") = true →
      ∀ bk : Booking, _process_ical_event ev pid plat rate clean bid t
        ≠ some (IcalParsed.bookingI bk))
    ∧ parse_ical c7feed "p1" "Airbnb" 150 75 (fun _ => "id0") (mkDate 2026 1 1)
        = ([], [⟨mkDate 2026 3 1, mkDate 2026 3 5, "Not available - Owner block", "p1"⟩]) := by
  constructor
  · intro ev pid plat rate clean bid t hblk bk
    simp only [_process_ical_event]
    cases h1 : _parse_ical_date (dictGet ev "DTSTART" "") with
    | none => simp
    | some ci =>
      cases h2 : _parse_ical_date (dictGet ev "DTEND" "") with
      | none => simp
      | some co =>
        simp [hblk]
  · decide

/-! ## C10: imported stays are always at least one night -/

/-- **C10.** Every booking `_process_ical_event` emits has
`num_nights = max(check_out − check_in, 1) ≥ 1`, with rate and payout
computed by `calculate_payout` for that clamped night count; and a feed
event with `DTEND = DTSTART` still yields one booking of one night (it is
not rejected). -/
theorem C10_min_one_night :
    (∀ (ev : EventDict) (pid plat : String) (rate clean : ℚ) (bid : String) (t : ℤ)
        (b : Booking),
      _process_ical_event ev pid plat rate clean bid t = some (IcalParsed.bookingI b) →
      1 ≤ b.num_nights
      ∧ ∃ ci co, _parse_ical_date (dictGet ev "DTSTART" "") = some ci
          ∧ _parse_ical_date (dictGet ev "DTEND" "") = some co
          ∧ b.num_nights = max (co - ci) 1
          ∧ b.nightly_rate = rate
          ∧ b.total_payout = (calculate_payout rate ((b.num_nights : ℤ) : ℚ) clean).1
          ∧ b.platform_fee = (calculate_payout rate ((b.num_nights : ℤ) : ℚ) clean).2)
    ∧ (parse_ical c10feed "p1" "Airbnb" 150 75 (fun _ => "id0") (mkDate 2026 1 1)).1.map
        (fun b => b.num_nights) = [1]
    ∧ (parse_ical c10feed "p1" "Airbnb" 150 75 (fun _ => "id0") (mkDate 2026 1 1)).1.map
        (fun b => (b.total_payout, b.platform_fee))
      = [calculate_payout 150 ((1 : ℤ) : ℚ) 75] := by
  refine ⟨?_, by decide, rfl⟩
  intro ev pid plat rate clean bid t b hproc
  simp only [_process_ical_event] at hproc
  cases h1 : _parse_ical_date (dictGet ev "DTSTART" "") with
  | none => rw [h1] at hproc; simp at hproc
  | some ci =>
    cases h2 : _parse_ical_date (dictGet ev "DTEND" "") with
    | none => rw [h1, h2] at hproc; simp at hproc
    | some co =>
      rw [h1, h2] at hproc
      by_cases hblk : isBlockedSummary (dictGet ev "SUMMARY" "") = true
      · simp [hblk] at hproc
      · simp only [Bool.not_eq_true] at hblk
        simp only [hblk, Bool.false_eq_true, if_false, Option.some.injEq,
          IcalParsed.bookingI.injEq] at hproc
        subst hproc
        refine ⟨le_max_right _ _, ci, co, rfl, rfl, rfl, rfl, rfl, rfl⟩

/-- Witness for C7: the general part applied to the concrete owner-block
event. -/
theorem C7_witness :
    isBlockedSummary (dictGet c7ev "SUMMARY" "") = true
    ∧ (∀ bk : Booking, _process_ical_event c7ev "p1" "Airbnb" 150 75 "id0" 0
        ≠ some (IcalParsed.bookingI bk)) :=
  ⟨by decide, C7_blocked_never_booking.1 c7ev "p1" "Airbnb" 150 75 "id0" 0 (by decide)⟩

/-- Witness for C10: the general part applied to the zero-length event. -/
theorem C10_witness :
    1 ≤ c10bk.num_nights
    ∧ (∃ ci co, _parse_ical_date (dictGet c10ev "DTSTART" "") = some ci
        ∧ _parse_ical_date (dictGet c10ev "DTEND" "") = some co
        ∧ c10bk.num_nights = max (co - ci) 1
        ∧ c10bk.nightly_rate = 150
        ∧ c10bk.total_payout = (calculate_payout 150 ((c10bk.num_nights : ℤ) : ℚ) 75).1
        ∧ c10bk.platform_fee = (calculate_payout 150 ((c10bk.num_nights : ℤ) : ℚ) 75).2) :=
  C10_min_one_night.1 c10ev "p1" "Airbnb" 150 75 "id" 0 c10bk rfl

/-! ## C8: a cancelled booking is inert -/

/-- **C8.** A booking whose status is `"cancelled"` contributes nothing:
inserting it anywhere into the booking list leaves the daily briefing, the
window metrics, and the gap analysis unchanged (it produces no
classification, action, nights, revenue or gap effect), while remaining an
element of the input list. -/
theorem C8_cancelled_inert (properties : List Property) (maints : List MaintenanceItem)
    (today : ℤ) (bs1 bs2 : List Booking) (c : Booking) (h : c.status = "cancelled") :
    generate_daily_briefing properties (bs1 ++ c :: bs2) maints today
        = generate_daily_briefing properties (bs1 ++ bs2) maints today
    ∧ (∀ (pid : String) (s e : ℤ), calculate_property_metrics (bs1 ++ c :: bs2) pid s e
        = calculate_property_metrics (bs1 ++ bs2) pid s e)
    ∧ (∀ (pid : String) (look : ℤ), get_gap_nights today (bs1 ++ c :: bs2) pid look
        = get_gap_nights today (bs1 ++ bs2) pid look)
    ∧ c ∈ bs1 ++ c :: bs2 := by
  have hstep : ∀ st, briefingStep properties today st c = st := by
    intro st
    unfold briefingStep
    rw [h]
    simp
  have hfoldl : ∀ init : DailyBriefing × List String,
      (bs1 ++ c :: bs2).foldl (briefingStep properties today) init
        = (bs1 ++ bs2).foldl (briefingStep properties today) init := by
    intro init
    rw [List.foldl_append, List.foldl_append, List.foldl_cons, hstep]
  have hfilter : ∀ p : Booking → Bool, p c = false →
      (bs1 ++ c :: bs2).filter p = (bs1 ++ bs2).filter p := by
    intro p hp
    rw [List.filter_append, List.filter_append, List.filter_cons, hp]
    simp
  refine ⟨?_, ?_, ?_, by simp⟩
  · simp only [generate_daily_briefing, hfoldl]
  · intro pid s e
    have hf1 : (bs1 ++ c :: bs2).filter (fun b => b.property_id == pid && b.status != "cancelled")
        = (bs1 ++ bs2).filter (fun b => b.property_id == pid && b.status != "cancelled") :=
      hfilter _ (by simp [h])
    simp only [calculate_property_metrics, prop_bookings_for, hf1]
  · intro pid look
    have hf2 : (bs1 ++ c :: bs2).filter (fun b => b.property_id == pid && b.status != "cancelled"
          && (match b.check_out with | some co => decide (co > today) | none => false))
        = (bs1 ++ bs2).filter (fun b => b.property_id == pid && b.status != "cancelled"
          && (match b.check_out with | some co => decide (co > today) | none => false)) :=
      hfilter _ (by simp [h])
    simp only [get_gap_nights, gapCandidates, hf2]

/-- Witness for C8: a concrete cancelled booking leaves a concrete
briefing unchanged. -/
theorem C8_witness :
    c8b.status = "cancelled"
    ∧ generate_daily_briefing [] ([] ++ c8b :: []) [] 0 = generate_daily_briefing [] ([] ++ []) [] 0 :=
  ⟨rfl, (C8_cancelled_inert [] [] 0 [] [] c8b rfl).1⟩

/-! ## C1: reconciliation idempotence and the deduplication key -/

theorem mem_addKey (s : List (String × Option ℤ × Option ℤ))
    (k x : String × Option ℤ × Option ℤ) :
    x ∈ addKey s k ↔ x = k ∨ x ∈ s := by
  unfold addKey
  by_cases h : k ∈ s
  · rw [if_pos h]
    constructor
    · exact Or.inr
    · rintro (rfl | hx)
      · exact h
      · exact hx
  · rw [if_neg h]
    exact List.mem_cons

theorem mem_foldl_addKey (l : List Booking) :
    ∀ (init : List (String × Option ℤ × Option ℤ)) (x : String × Option ℤ × Option ℤ),
      (x ∈ l.foldl (fun s b => addKey s (bookingKey b)) init
        ↔ x ∈ init ∨ x ∈ l.map bookingKey) := by
  induction l with
  | nil => intro init x; simp
  | cons b bs ih =>
    intro init x
    rw [List.foldl_cons, ih, mem_addKey]
    simp only [List.map_cons, List.mem_cons]
    tauto

theorem dedupGo_spec (new : List Booking) :
    ∀ (ks L seen : List (String × Option ℤ × Option ℤ)) (uniq : List Booking) (d : ℕ),
      (∀ k, k ∈ ks ↔ k ∈ L ∨ k ∈ seen) →
      (dedupGo ks uniq d new).1 = uniq ++ dedupSpecGo L seen new := by
  induction new with
  | nil => intro ks L seen uniq d _; simp [dedupGo, dedupSpecGo]
  | cons b bs ih =>
    intro ks L seen uniq d hInv
    unfold dedupGo dedupSpecGo
    by_cases hk : bookingKey b ∈ ks
    · rw [if_pos hk, if_pos ((hInv _).mp hk)]
      exact ih ks L seen uniq (d + 1) hInv
    · rw [if_neg hk, if_neg (fun hc => hk ((hInv _).mpr hc))]
      rw [ih (addKey ks (bookingKey b)) L (bookingKey b :: seen) (uniq ++ [b]) d ?_]
      · rw [List.append_assoc, List.singleton_append]
      · intro k
        rw [mem_addKey]
        have := hInv k
        simp only [List.mem_cons]
        tauto

theorem dedupGo_len (new : List Booking) :
    ∀ (ks : List (String × Option ℤ × Option ℤ)) (uniq : List Booking) (d : ℕ),
      (dedupGo ks uniq d new).1.length + (dedupGo ks uniq d new).2
        = uniq.length + d + new.length := by
  induction new with
  | nil => intro ks uniq d; simp [dedupGo]
  | cons b bs ih =>
    intro ks uniq d
    unfold dedupGo
    by_cases hk : bookingKey b ∈ ks
    · rw [if_pos hk]
      have := ih ks uniq (d + 1)
      simp only [List.length_cons]
      omega
    · rw [if_neg hk]
      have := ih (addKey ks (bookingKey b)) (uniq ++ [b]) d
      simp only [List.length_append, List.length_cons, List.length_nil] at *
      omega

theorem dedupGo_all_dupes (new : List Booking) :
    ∀ (ks : List (String × Option ℤ × Option ℤ)) (uniq : List Booking) (d : ℕ),
      (∀ b ∈ new, bookingKey b ∈ ks) →
      dedupGo ks uniq d new = (uniq, d + new.length) := by
  induction new with
  | nil => intro ks uniq d _; simp [dedupGo]
  | cons b bs ih =>
    intro ks uniq d hall
    unfold dedupGo
    rw [if_pos (hall b (List.mem_cons_self b bs))]
    rw [ih ks uniq (d + 1) (fun x hx => hall x (List.mem_cons_of_mem b hx))]
    simp only [List.length_cons, Prod.mk.injEq]
    exact ⟨by trivial, by omega⟩

theorem dedupSpecGo_covers (new : List Booking) :
    ∀ (L seen : List (String × Option ℤ × Option ℤ)) (b : Booking), b ∈ new →
      bookingKey b ∈ L ∨ bookingKey b ∈ seen
        ∨ bookingKey b ∈ (dedupSpecGo L seen new).map bookingKey := by
  induction new with
  | nil => intro L seen b hb; exact absurd hb (List.not_mem_nil b)
  | cons a new' ih =>
    intro L seen b hb
    unfold dedupSpecGo
    rcases List.mem_cons.mp hb with rfl | hb'
    · by_cases hc : bookingKey b ∈ L ∨ bookingKey b ∈ seen
      · rcases hc with h | h
        · exact Or.inl h
        · exact Or.inr (Or.inl h)
      · rw [if_neg hc]
        exact Or.inr (Or.inr (by simp))
    · by_cases hc : bookingKey a ∈ L ∨ bookingKey a ∈ seen
      · rw [if_pos hc]
        exact ih L seen b hb'
      · rw [if_neg hc]
        rcases ih L (bookingKey a :: seen) b hb' with h | h | h
        · exact Or.inl h
        · rcases List.mem_cons.mp h with heq | hseen
          · exact Or.inr (Or.inr (by simp [heq]))
          · exact Or.inr (Or.inl hseen)
        · exact Or.inr (Or.inr (by simp only [List.map_cons, List.mem_cons]; exact Or.inr h))

theorem dedupGo_covers (new : List Booking)
    (ks : List (String × Option ℤ × Option ℤ)) (b : Booking) (hb : b ∈ new) :
    bookingKey b ∈ ks ∨ bookingKey b ∈ ((dedupGo ks [] 0 new).1).map bookingKey := by
  have hspec : (dedupGo ks [] 0 new).1 = dedupSpecGo ks [] new :=
    dedupGo_spec new ks ks [] [] 0 (fun k => by simp)
  rw [hspec]
  rcases dedupSpecGo_covers new ks [] b hb with h | h | h
  · exact Or.inl h
  · exact absurd h (List.not_mem_nil _)
  · exact Or.inr h

theorem processEvent_parsedKey (ev : EventDict) (pid plat : String) (rate clean : ℚ)
    (bid : String) (t : ℤ) :
    Option.map parsedKey (_process_ical_event ev pid plat rate clean bid t)
      = canonProcess ev pid := by
  simp only [_process_ical_event, canonProcess]
  cases _parse_ical_date (dictGet ev "DTSTART" "") with
  | none => rfl
  | some ci =>
    cases _parse_ical_date (dictGet ev "DTEND" "") with
    | none => rfl
    | some co =>
      by_cases hblk : isBlockedSummary (dictGet ev "SUMMARY" "") = true
      · simp only [hblk, if_true, Option.map]
        rfl
      · simp only [hblk, if_false, Bool.false_eq_true, Option.map]
        rfl

theorem icalStep_parity (pid plat : String) (rate clean : ℚ) (gen1 gen2 : ℕ → String)
    (t1 t2 : ℤ) (s1 s2 : ParseState) (line : List Char)
    (h1 : s1.in_event = s2.in_event) (h2 : s1.ev = s2.ev) (h3 : s1.blk = s2.blk)
    (h4 : s1.bks.map bookingKey = s2.bks.map bookingKey) :
    (icalStep pid plat rate clean gen1 t1 s1 line).in_event
        = (icalStep pid plat rate clean gen2 t2 s2 line).in_event
    ∧ (icalStep pid plat rate clean gen1 t1 s1 line).ev
        = (icalStep pid plat rate clean gen2 t2 s2 line).ev
    ∧ (icalStep pid plat rate clean gen1 t1 s1 line).blk
        = (icalStep pid plat rate clean gen2 t2 s2 line).blk
    ∧ ((icalStep pid plat rate clean gen1 t1 s1 line).bks).map bookingKey
        = ((icalStep pid plat rate clean gen2 t2 s2 line).bks).map bookingKey := by
  obtain ⟨ie1, ev1, bks1, blk1⟩ := s1
  obtain ⟨ie2, ev2, bks2, blk2⟩ := s2
  simp only at h1 h2 h3 h4
  subst h1; subst h2; subst h3
  simp only [icalStep]
  by_cases hb : chTrim line = "BEGIN:VEVENT".toList
  · simp only [if_pos hb]
    exact ⟨by trivial, by trivial, by trivial, by exact h4⟩
  · simp only [if_neg hb]
    by_cases he : chTrim line = "END:VEVENT".toList
    · simp only [if_pos he]
      by_cases hne : ev1 ≠ []
      · simp only [if_pos hne]
        have hp : Option.map parsedKey
              (_process_ical_event ev1 pid plat rate clean (gen1 bks1.length) t1)
            = Option.map parsedKey
              (_process_ical_event ev1 pid plat rate clean (gen2 bks2.length) t2) := by
          rw [processEvent_parsedKey, processEvent_parsedKey]
        cases hA : _process_ical_event ev1 pid plat rate clean (gen1 bks1.length) t1 with
        | none =>
          cases hB : _process_ical_event ev1 pid plat rate clean (gen2 bks2.length) t2 with
          | none => exact ⟨by trivial, by trivial, by trivial, by exact h4⟩
          | some y => rw [hA, hB] at hp; simp at hp
        | some x =>
          cases hB : _process_ical_event ev1 pid plat rate clean (gen2 bks2.length) t2 with
          | none => rw [hA, hB] at hp; simp at hp
          | some y =>
            rw [hA, hB] at hp
            simp only [Option.map_some', Option.some.injEq] at hp
            cases x with
            | blockedI a =>
              cases y with
              | blockedI b =>
                simp only [parsedKey, Option.some.injEq, Sum.inl.injEq] at hp
                subst hp
                exact ⟨by trivial, by trivial, by trivial, by exact h4⟩
              | bookingI b => simp [parsedKey] at hp
            | bookingI a =>
              cases y with
              | blockedI b => simp [parsedKey] at hp
              | bookingI b =>
                simp only [parsedKey, Sum.inr.injEq] at hp
                refine ⟨rfl, rfl, rfl, ?_⟩
                simp only [List.map_append, List.map_cons, List.map_nil, h4, hp]
      · simp only [if_neg hne]
        exact ⟨by trivial, by trivial, by trivial, by exact h4⟩
    · simp only [if_neg he]
      by_cases hie : ie1 = true
      · simp only [if_pos hie]
        cases hkv : chSplitOnce ":".toList (chTrim line) with
        | none => exact ⟨by trivial, by trivial, by trivial, by exact h4⟩
        | some kv =>
          obtain ⟨k, v⟩ := kv
          exact ⟨by trivial, by trivial, by trivial, by exact h4⟩
      · simp only [if_neg hie]
        exact ⟨by trivial, by trivial, by trivial, by exact h4⟩

theorem icalFold_parity (pid plat : String) (rate clean : ℚ) (gen1 gen2 : ℕ → String)
    (t1 t2 : ℤ) (lines : List (List Char)) :
    ∀ (s1 s2 : ParseState),
      s1.in_event = s2.in_event → s1.ev = s2.ev → s1.blk = s2.blk →
      s1.bks.map bookingKey = s2.bks.map bookingKey →
      (lines.foldl (icalStep pid plat rate clean gen1 t1) s1).blk
          = (lines.foldl (icalStep pid plat rate clean gen2 t2) s2).blk
      ∧ ((lines.foldl (icalStep pid plat rate clean gen1 t1) s1).bks).map bookingKey
          = ((lines.foldl (icalStep pid plat rate clean gen2 t2) s2).bks).map bookingKey := by
  induction lines with
  | nil => intro s1 s2 _ _ h3 h4; exact ⟨h3, h4⟩
  | cons l ls ih =>
    intro s1 s2 h1 h2 h3 h4
    rw [List.foldl_cons, List.foldl_cons]
    obtain ⟨g1, g2, g3, g4⟩ := icalStep_parity pid plat rate clean gen1 gen2 t1 t2 s1 s2 l h1 h2 h3 h4
    exact ih _ _ g1 g2 g3 g4

theorem parse_ical_parity (txt pid plat : String) (rate clean : ℚ)
    (gen1 gen2 : ℕ → String) (t1 t2 : ℤ) :
    ((parse_ical txt pid plat rate clean gen1 t1).1).map bookingKey
        = ((parse_ical txt pid plat rate clean gen2 t2).1).map bookingKey
    ∧ (parse_ical txt pid plat rate clean gen1 t1).2
        = (parse_ical txt pid plat rate clean gen2 t2).2 := by
  simp only [parse_ical]
  by_cases hemp : chTrim txt.toList = []
  · simp only [if_pos hemp]
    exact ⟨by trivial, by trivial⟩
  · simp only [if_neg hemp]
    have h := icalFold_parity pid plat rate clean gen1 gen2 t1 t2
      (chSplitBy (fun c => c == '\n' || c == '\r') (stripFoldTab (stripFoldSpace txt.toList)))
      { in_event := false, ev := [], bks := [], blk := [] }
      { in_event := false, ev := [], bks := [], blk := [] }
      rfl rfl rfl rfl
    exact ⟨h.2, h.1⟩

theorem dedup_second_run (ledger run1 run2 : List Booking)
    (hk : run2.map bookingKey = run1.map bookingKey) :
    deduplicate_ical_bookings
        (ledger ++ (deduplicate_ical_bookings ledger run1).1) run2
      = ([], run2.length) := by
  unfold deduplicate_ical_bookings
  have hall : ∀ b ∈ run2, bookingKey b ∈
      ((ledger ++ (dedupGo (ledger.foldl (fun s b => addKey s (bookingKey b)) []) [] 0 run1).1).foldl
        (fun s b => addKey s (bookingKey b)) []) := by
    intro b hb
    apply (mem_foldl_addKey _ [] _).mpr
    refine Or.inr ?_
    rw [List.map_append]
    have hbk : bookingKey b ∈ run1.map bookingKey := by
      rw [← hk]; exact List.mem_map_of_mem _ hb
    obtain ⟨b1, hb1, hkeq⟩ := List.mem_map.mp hbk
    rcases dedupGo_covers run1 (ledger.foldl (fun s b => addKey s (bookingKey b)) []) b1 hb1
      with hL | hU
    · have hml : bookingKey b1 ∈ ledger.map bookingKey := by
        simpa using (mem_foldl_addKey ledger [] (bookingKey b1)).mp hL
      exact List.mem_append_left _ (hkeq ▸ hml)
    · exact List.mem_append_right _ (hkeq ▸ hU)
  rw [dedupGo_all_dupes run2 _ [] 0 hall]
  simp

/-- C1: reconciliation is idempotent — re-importing the same feed against the
ledger extended with the first run's unique bookings adds zero bookings and
reports every parsed candidate as a duplicate; moreover the survivors of one
deduplication run are exactly the candidates whose `(property_id, check_in,
check_out)` key is neither in the existing ledger nor on an earlier surviving
candidate of the same batch, and survivors plus duplicates account for every
candidate. -/
theorem C1_reconciliation_idempotent :
    (∀ (ical_text pid plat : String) (rate clean : ℚ) (gen1 gen2 : ℕ → String)
        (t1 t2 : ℤ) (ledger : List Booking),
      deduplicate_ical_bookings
          (ledger ++ (deduplicate_ical_bookings ledger
              (parse_ical ical_text pid plat rate clean gen1 t1).1).1)
          (parse_ical ical_text pid plat rate clean gen2 t2).1
        = ([], (parse_ical ical_text pid plat rate clean gen2 t2).1.length))
    ∧ (∀ existing_bookings new_bookings : List Booking,
        (deduplicate_ical_bookings existing_bookings new_bookings).1
          = dedupSpecGo (existing_bookings.map bookingKey) [] new_bookings)
    ∧ (∀ existing_bookings new_bookings : List Booking,
        (deduplicate_ical_bookings existing_bookings new_bookings).1.length
          + (deduplicate_ical_bookings existing_bookings new_bookings).2
          = new_bookings.length) := by
  refine ⟨?_, ?_, ?_⟩
  · intro txt pid plat rate clean gen1 gen2 t1 t2 ledger
    exact dedup_second_run ledger _ _
      (parse_ical_parity txt pid plat rate clean gen2 gen1 t2 t1).1
  · intro existing_bookings new_bookings
    unfold deduplicate_ical_bookings
    have hInv : ∀ k, k ∈ existing_bookings.foldl (fun s b => addKey s (bookingKey b)) []
        ↔ k ∈ existing_bookings.map bookingKey ∨ k ∈ ([] : List (String × Option ℤ × Option ℤ)) := by
      intro k
      rw [mem_foldl_addKey]
      simp
    rw [dedupGo_spec new_bookings _ (existing_bookings.map bookingKey) [] [] 0 hInv,
      List.nil_append]
  · intro existing_bookings new_bookings
    unfold deduplicate_ical_bookings
    have := dedupGo_len new_bookings
      (existing_bookings.foldl (fun s b => addKey s (bookingKey b)) []) [] 0
    simpa using this
